import Mathlib

/-!
Verification development for the HL7 v2.x message parsers of the
scheduled-task-service repository (`src/lab-results/src/utils/parseHL7Message.js`
and `src/lab-results/src/utils/parseEMRHL7Message.js`).

The JavaScript code manipulates dynamically typed JSON-like values.  We embed
those values as the inductive type `Val` below: JS `null` and `undefined` are
both embedded as `Val.null` (the source only ever distinguishes them through
truthiness and through the `=== null || === undefined` test of
`removeEmptyFields`, which treats them alike), strings as `Val.str`, booleans
as `Val.bool`, arrays as `Val.arr` and objects as `Val.obj` with fields kept
in insertion order.

The raw-string tokenizer used by both parser files is the external
`hl7-standard` npm package (`require('hl7-standard/src/api')`), whose code is
not part of this repository; per the spec it turns one raw message into an
ordered list of typed segments and fails when no header-type (MSH) segment is
present.  We therefore model a message at that interface: as the ordered list
of segments the tokenizer would produce, each a three-letter type plus a field
dictionary.

The parsers build their output by mutating "current" patient/order/result/
observation objects that have already been pushed into their parent's list.
The embedding replaces that aliasing by explicit state passing: the current
objects are kept out of their parent's list while they can still grow and are
flushed into the parent exactly when the source stops mutating them (when the
next sibling opens, or at the end of the segment walk).  The final object
graphs agree field-for-field; only the insertion position of object keys that
the source creates on an already-pushed object (e.g. a patient's `orders` key)
can differ, which no key lookup can observe.
-/

/-- A JSON-like JavaScript value.  `null` stands for both JS `null` and
`undefined` (see the module comment). -/
inductive Val where
  | null
  | bool (b : Bool)
  | str (s : String)
  | arr (elems : List Val)
  | obj (fields : List (String × Val))
deriving Inhabited

namespace Val

/-- JS truthiness: `null`/`undefined`, `false` and `''` are falsy; every other
value produced by the tokenizer or the parsers (non-empty strings, all arrays
and objects, `true`) is truthy. -/
def truthy : Val → Bool
  | .null => false
  | .bool b => b
  | .str s => s ≠ ""
  | .arr _ => true
  | .obj _ => true

end Val

/-- JS `a || b`: the left operand when it is truthy, otherwise the right. -/
def jsOr (a b : Val) : Val := if a.truthy then a else b

/-- JS `a && b`: the left operand when it is falsy, otherwise the right. -/
def jsAnd (a b : Val) : Val := if a.truthy then b else a

/-- Dictionary lookup, `d[k]`: the first binding of `k`, or `null`
(JS `undefined`) when the key is absent. -/
def lookupKey (fields : List (String × Val)) (k : String) : Val :=
  match fields with
  | [] => .null
  | (k', v) :: rest => if k' == k then v else lookupKey rest k

namespace Val

/-- JS `v?.[k]` (and `v[k]` on values known to be non-null): field lookup on
an object; `null`/`undefined` on every other value. -/
def get (v : Val) (k : String) : Val :=
  match v with
  | .obj fs => lookupKey fs k
  | _ => .null

end Val

/-- JS `obj[k] = x`: replace the first binding of `k`, or append the key at
the end (insertion order) when it is absent. -/
def setField (fields : List (String × Val)) (k : String) (x : Val) :
    List (String × Val) :=
  match fields with
  | [] => [(k, x)]
  | (k', v) :: rest =>
      if k' == k then (k, x) :: rest else (k', v) :: setField rest k x

namespace Val

/-- JS `obj[k] = x` on a value; a no-op on non-objects (the parsers only ever
assign keys on objects). -/
def setKey (v : Val) (k : String) (x : Val) : Val :=
  match v with
  | .obj fs => .obj (setField fs k x)
  | _ => v

/-- JS `obj[k] = obj[k] || []; obj[k].push(x)`: append `x` to the array stored
at `k`, creating a one-element array when the key is absent (in the source the
key always holds an array when present). -/
def pushToArrKey (v : Val) (k : String) (x : Val) : Val :=
  match v.get k with
  | .arr xs => v.setKey k (.arr (xs ++ [x]))
  | _ => v.setKey k (.arr [x])

/-- JS `v?.slice(1)` as used on the Ontario producer-id component: drops the
first element of an array or the first character of a string; `undefined` on
`null`/`undefined` (other receivers would fault in the source and are not
produced by the tokenizer for this field). -/
def jsSlice1 : Val → Val
  | .arr xs => .arr (xs.drop 1)
  | .str s => .str (s.drop 1)
  | _ => .null

/-- JS `v?.[i]` with a numeric index: array indexing, or one-character string
indexing; `undefined` out of range and on non-indexable values. -/
def jsAt (v : Val) (i : Nat) : Val :=
  match v with
  | .arr xs =>
      match xs.drop i with
      | [] => .null
      | x :: _ => x
  | .str s => if i < s.length then .str ((s.drop i).take 1) else .null
  | _ => .null

/-- Length of an array value (0 on anything else); used to state claims about
sequence-valued output fields. -/
def arrLen : Val → Nat
  | .arr xs => xs.length
  | _ => 0

end Val

/-- JS `Array.isArray(x) ? x : [x]`, the repeated-field normalization pattern
both parsers use. -/
def asArray (v : Val) : List Val :=
  match v with
  | .arr xs => xs
  | _ => [v]

/-- The test `arrayOrObject[key] === null || === undefined || === ''` of both
`removeEmptyFields` implementations. -/
def isEmptyField : Val → Bool
  | .null => true
  | .str s => s == ""
  | _ => false

mutual

/-- JS `String(v)` coercion as used on tokenizer values: strings unchanged,
`null`/`undefined` print their names, booleans print their names, arrays
print as their comma-joined elements (with `null` elements printing empty)
and plain objects as `"[object Object]"`. -/
def jsToString : Val → String
  | .null => "null"
  | .bool b => if b then "true" else "false"
  | .str s => s
  | .arr xs => jsArrToString xs
  | .obj _ => "[object Object]"

/-- Array-to-string coercion, `Array.prototype.toString` = `join(',')`. -/
def jsArrToString : List Val → String
  | [] => ""
  | [x] => jsElemToString x
  | x :: y :: rest => jsElemToString x ++ "," ++ jsArrToString (y :: rest)

/-- One array element under `join`: `null`/`undefined` print empty. -/
def jsElemToString : Val → String
  | .null => ""
  | .bool b => if b then "true" else "false"
  | .str s => s
  | .arr xs => jsArrToString xs
  | .obj _ => "[object Object]"

end

/-- Whether the character list `pat` is an initial run of `s`. -/
def leadsWith : List Char → List Char → Bool
  | [], _ => true
  | _ :: _, [] => false
  | p :: ps, c :: cs => p == c && leadsWith ps cs

/-- Whether the character list `pat` occurs inside `s`. -/
def occursIn (pat : List Char) : List Char → Bool
  | [] => leadsWith pat []
  | c :: cs => leadsWith pat (c :: cs) || occursIn pat cs

/-- JS `s.includes(pat)` on strings: substring containment. -/
def strContains (s pat : String) : Bool := occursIn pat.toList s.toList

/-- Drop the first occurrence of `pat` from the character list. -/
def dropFirstOccur (pat : List Char) : List Char → List Char
  | [] => []
  | c :: cs =>
      if leadsWith pat (c :: cs) then (c :: cs).drop pat.length
      else c :: dropFirstOccur pat cs

/-- JS `s.replace(pat, '')` with a plain-string pattern: removes only the
first occurrence of `pat` (the source always replaces with the empty
string). -/
def replaceFirstWithEmpty (s pat : String) : String :=
  ⟨dropFirstOccur pat.toList s.toList⟩

/-- JS `s.substring(a, b)`: the characters from position `a` (clamped) up to
`b` (clamped); the parsers only call it with `a ≤ b`. -/
def jsSubstring (s : String) (a b : Nat) : String := (s.drop a).take (b - a)

/-- JS strict equality `v === lit` against a string literal: true exactly on
that string, false on every other value. -/
def strictEqStr (v : Val) (lit : String) : Bool :=
  match v with
  | .str s => s == lit
  | _ => false

/-- The compound payload test
`value && typeof value === 'string' && value.includes(pat)`:
a truthy (non-empty) string containing `pat`. -/
def strPayloadContains (v : Val) (pat : String) : Bool :=
  match v with
  | .str s => s != "" && strContains s pat
  | _ => false

/-- One tokenized segment as `hl7-standard` hands it to the parsers: its
three-letter `type` (e.g. `"MSH"`, `"PID"`) and its field dictionary `data`
with keys such as `"PID.5"`, whose values are strings, component objects
(with keys such as `"PID.5.1"`) or arrays for repeated fields. -/
structure Segment where
  type : String
  data : List (String × Val)
deriving Inhabited

/-- Failure of the whole parse, surfaced to the caller as a thrown error. -/
inductive ParseError where
  | noHeaderSegment
deriving DecidableEq

/-- Modelled from the spec: the tokenizer of the external `hl7-standard`
package (the `HL7` class's `transform` and `getSegments`, required by both
parser files but not part of this repository's sources) splits one raw
message into the ordered list of its segments and "fails with a ParseError if
no header-type segment is present, since delimiter characters cannot be
established"; on success `getSegments('')` returns every segment, and the
parsers' subsequent sort by source index is the identity on that order.  We
take the segment list itself as the parser input and keep the failure
condition. -/
def tokenize (segments : List Segment) : Except ParseError (List Segment) :=
  if segments.any (fun s => s.type == "MSH") then .ok segments
  else .error .noHeaderSegment

/-- Which notes list `currentNTEContext` points at: none, the current
patient's, the current lab result's, or the current observation's. -/
inductive NCtx where
  | nul
  | pat
  | res
  | obx
deriving DecidableEq

/-- Fold the pending observation (if any) into the pending lab result's
`observations` array; in the source the observation was pushed there when its
OBX segment was read. -/
def closeResult (res obx : Option Val) : Option Val :=
  match res, obx with
  | some r, some o => some (r.pushToArrKey "observations" o)
  | r, _ => r

/-- Fold the pending lab result (with its pending observation) into the
pending order's `labResults` array; in the source the result was pushed there
when its OBR segment was read. -/
def closeOrder (ord res obx : Option Val) : Option Val :=
  match ord, closeResult res obx with
  | some od, some r => some (od.pushToArrKey "labResults" r)
  | od, _ => od

/-- Fold the pending order subtree into the patient's `orders` array; in the
source the order was pushed there when its ORC/OBR segment was read. -/
def closePatient (pat ord res obx : Option Val) : Option Val :=
  match pat, closeOrder ord res obx with
  | some p, some od => some (p.pushToArrKey "orders" od)
  | p, _ => p

/-! ## `src/lab-results/src/utils/parseHL7Message.js` (GDML dialect) -/

namespace GDML

/-- Embedding of `formatDate` of parseHL7Message.js: HL7 `YYYYMMDD[HH[MM[SS]]]` to an
ISO-8601-like string, missing hour/minute/second defaulting to `00`; falsy
input maps to the empty string.  (A truthy non-string input would fault in
the source on `substring`; date fields are never tokenized to such values.) -/
def formatDate (date : Val) : Val :=
  if ¬ date.truthy then .str ""
  else
    match date with
    | .str s =>
        let year := jsSubstring s 0 4
        let month := jsSubstring s 4 6
        let day := jsSubstring s 6 8
        let hour := if jsSubstring s 8 10 = "" then "00" else jsSubstring s 8 10
        let minute := if jsSubstring s 10 12 = "" then "00" else jsSubstring s 10 12
        let second := if jsSubstring s 12 14 = "" then "00" else jsSubstring s 12 14
        .str (year ++ "-" ++ month ++ "-" ++ day ++ "T" ++ hour ++ ":" ++ minute
          ++ ":" ++ second)
    | _ => .str ""

/-- Embedding of `parseMSH` of parseHL7Message.js. -/
def parseMSH (segment : Segment) : Val :=
  let d := segment.data
  .obj [
    ("fieldSeparator", jsOr (lookupKey d "MSH.1") (.str "|")),
    ("encodingCharacters", jsOr (lookupKey d "MSH.2") (.str "^~\\&")),
    ("sendingApplication", jsOr (lookupKey d "MSH.3") (.str "")),
    ("sendingFacility", jsOr (lookupKey d "MSH.4") (.str "")),
    ("receivingApplication", jsOr (lookupKey d "MSH.5") (.str "")),
    ("receivingFacility", jsOr (lookupKey d "MSH.6") (.str "")),
    ("messageDateTime", formatDate (jsOr (lookupKey d "MSH.7") (.str ""))),
    ("security", jsOr (lookupKey d "MSH.8") .null),
    ("messageType", .obj [
      ("messageCode", jsOr ((lookupKey d "MSH.9").get "MSH.9.1") (.str "ORU")),
      ("triggerEvent", jsOr ((lookupKey d "MSH.9").get "MSH.9.2") (.str "R01"))]),
    ("messageControlId", jsOr (lookupKey d "MSH.10") (.str "")),
    ("processingId", jsOr (lookupKey d "MSH.11") (.str "P")),
    ("versionId", jsOr (lookupKey d "MSH.12") (.str "2.3")),
    ("sequenceNumber", jsOr (lookupKey d "MSH.13") .null),
    ("continuationPointer", jsOr (lookupKey d "MSH.14") .null),
    ("acceptAcknowledgementType", jsOr (lookupKey d "MSH.15") .null),
    ("applicationAcknowledgementType", jsOr (lookupKey d "MSH.16") .null),
    ("countryCode", jsOr (lookupKey d "MSH.17") .null),
    ("characterSet", jsOr (lookupKey d "MSH.18") .null),
    ("principalLanguageOfMessage", jsOr (lookupKey d "MSH.19") .null)]

/-- Embedding of `parsePID` of parseHL7Message.js. -/
def parsePID (segment : Segment) : Val :=
  let d := segment.data
  let patientIdInternal := jsOr (lookupKey d "PID.2") (.obj [])
  .obj [
    ("setId", jsOr (lookupKey d "PID.1") (.str "")),
    ("patientIdInternal", .obj [
      ("uniqueIdentifier", jsOr (patientIdInternal.get "PID.2.1") (.str "")),
      ("versionNumber", jsOr (patientIdInternal.get "PID.2.2") (.str "")),
      ("provinceCode", jsOr (patientIdInternal.get "PID.2.3") (.str "")),
      ("clientReferenceId", jsOr (patientIdInternal.get "PID.2.4") (.str "")),
      ("clientType", jsOr (patientIdInternal.get "PID.2.5") (.str "")),
      ("assigningAuthority", jsOr (patientIdInternal.get "PID.2.6") (.str "")),
      ("jurisdiction", jsOr (patientIdInternal.get "PID.2.7") (.str ""))]),
    ("patientIdExternal", .arr (
      (match lookupKey d "PID.3" with
       | .arr xs => xs
       | v => [jsOr v (.obj [])]).map fun (id : Val) => .obj [
        ("uniqueIdentifier", jsOr (id.get "PID.3.1") (.str "")),
        ("assigningFacility", .obj [
          ("authority", jsOr ((id.get "PID.3.4").get "PID.3.4.1") (.str "")),
          ("identifierType", jsOr ((id.get "PID.3.4").get "PID.3.4.2") (.str "")),
          ("facilityId", jsOr ((id.get "PID.3.4").get "PID.3.4.3") (.str ""))])])),
    ("alternateExternalPatientId", jsOr (lookupKey d "PID.4") .null),
    ("names", if (lookupKey d "PID.5").truthy then
        .arr ((asArray (lookupKey d "PID.5")).map fun name => .obj [
          ("familyName", jsOr (name.get "PID.5.1") (.str "")),
          ("givenName", jsOr (name.get "PID.5.2") (.str "")),
          ("middleName", jsOr (name.get "PID.5.3") (.str ""))])
      else .arr []),
    ("mothersMaidenName", jsOr (lookupKey d "PID.6") .null),
    ("dateOfBirth", formatDate (jsOr (lookupKey d "PID.7") (.str ""))),
    ("sex", jsOr (lookupKey d "PID.8") (.str "")),
    ("patientAlias", jsOr (lookupKey d "PID.9") .null),
    ("race", jsOr (lookupKey d "PID.10") .null),
    ("addresses", if (lookupKey d "PID.11").truthy then
        .arr ((asArray (lookupKey d "PID.11")).map fun addr => .obj [
          ("street", jsOr (addr.get "PID.11.1") (.str "")),
          ("apt", jsOr (addr.get "PID.11.2") (.str "")),
          ("city", jsOr (addr.get "PID.11.3") (.str "")),
          ("province", jsOr (addr.get "PID.11.4") (.str "")),
          ("postalCode", jsOr (addr.get "PID.11.5") (.str "")),
          ("country", jsOr (addr.get "PID.11.6") (.str ""))])
      else .arr []),
    ("countyCode", jsOr (lookupKey d "PID.12") .null),
    ("phoneNumbers", if (lookupKey d "PID.13").truthy then
        .arr ((match lookupKey d "PID.13" with
               | .arr xs => xs
               | v => [jsOr v (.str "")]).map fun (phone : Val) => jsOr phone (.str ""))
      else .arr []),
    ("alternatePhoneNumber", jsOr (lookupKey d "PID.14") .null),
    ("primaryLanguage", jsOr (lookupKey d "PID.15") .null),
    ("maritalStatus", jsOr (lookupKey d "PID.16") .null),
    ("religion", jsOr (lookupKey d "PID.17") .null),
    ("patientAccountNumber", jsOr (lookupKey d "PID.18") .null),
    ("ssnNumber", jsOr (lookupKey d "PID.19") .null),
    ("driversLicenseNumber", jsOr (lookupKey d "PID.20") .null),
    ("mothersIdentifier", jsOr (lookupKey d "PID.21") .null),
    ("ethnicGroup", jsOr (lookupKey d "PID.22") .null),
    ("birthPlace", jsOr (lookupKey d "PID.23") .null),
    ("multipleBirthIndicator", jsOr (lookupKey d "PID.24") .null),
    ("birthOrder", jsOr (lookupKey d "PID.25") .null),
    ("citizenship", jsOr (lookupKey d "PID.26") .null),
    ("veteransMedicalStatus", jsOr (lookupKey d "PID.27") .null),
    ("nationalityCode", jsOr (lookupKey d "PID.28") .null),
    ("patientDeathDateTime", formatDate (jsOr (lookupKey d "PID.29") .null)),
    ("patientDeathIndicator", jsOr (lookupKey d "PID.30") .null),
    ("notes", .arr [])]

/-- Embedding of `parseZDR` of parseHL7Message.js. -/
def parseZDR (segment : Segment) : Val :=
  let d := segment.data
  .obj [
    ("setId", jsOr (lookupKey d "ZDR.1") (.str "")),
    ("segmentType", jsOr (lookupKey d "ZDR.2") (.str "")),
    ("physician", .obj [
      ("physicianClientNumber", jsOr ((lookupKey d "ZDR.3").get "ZDR.3.1") (.str "")),
      ("alternateAddressNumber", jsOr ((lookupKey d "ZDR.3").get "ZDR.3.2") .null),
      ("regulatoryBodyType", jsOr ((lookupKey d "ZDR.3").get "ZDR.3.3") .null),
      ("regulatoryBodyId", jsOr ((lookupKey d "ZDR.3").get "ZDR.3.4") .null)]),
    ("physicianName", .obj [
      ("name", jsOr ((lookupKey d "ZDR.4").get "ZDR.4.1") (.str "")),
      ("lastName", jsOr ((lookupKey d "ZDR.4").get "ZDR.4.2") (.str "")),
      ("middleName", jsOr ((lookupKey d "ZDR.4").get "ZDR.4.3") (.str ""))]),
    ("physicianAddress", .obj [
      ("addressLine1", jsOr ((lookupKey d "ZDR.5").get "ZDR.5.1") (.str "")),
      ("addressLine2", jsOr ((lookupKey d "ZDR.5").get "ZDR.5.2") (.str "")),
      ("city", jsOr ((lookupKey d "ZDR.5").get "ZDR.5.3") (.str "")),
      ("province", jsOr ((lookupKey d "ZDR.5").get "ZDR.5.4") (.str "")),
      ("postalCode", jsOr ((lookupKey d "ZDR.5").get "ZDR.5.5") (.str ""))]),
    ("telephone", jsOr (lookupKey d "ZDR.6") (.str "")),
    ("slotCode", jsOr (lookupKey d "ZDR.9") .null),
    ("courierRoutes", .obj [
      ("route1", jsOr ((lookupKey d "ZDR.10").get "ZDR.10.1") .null),
      ("route2", jsOr ((lookupKey d "ZDR.10").get "ZDR.10.2") .null),
      ("route3", jsOr ((lookupKey d "ZDR.10").get "ZDR.10.3") .null)])]

/-- Embedding of `parseORC` of parseHL7Message.js. -/
def parseORC (segment : Segment) : Val :=
  let d := segment.data
  .obj [
    ("orderControl", jsOr (lookupKey d "ORC.1") (.str "")),
    ("placerOrderNumber", jsOr (lookupKey d "ORC.2") .null),
    ("fillerOrderNumber", jsOr (lookupKey d "ORC.3") .null),
    ("patientIdExternal", .obj [
      ("uniqueId", jsOr (jsOr ((lookupKey d "ORC.4").get "ORC.4.1")
        (lookupKey d "ORC.4")) (.str "")),
      ("fillerApplicationId", jsOr ((lookupKey d "ORC.4").get "ORC.4.2") (.str ""))]),
    ("orderStatus", jsOr (lookupKey d "ORC.5") (.str "")),
    ("responseFlag", jsOr (lookupKey d "ORC.6") .null),
    ("quantityTiming", jsOr (lookupKey d "ORC.7") .null),
    ("parentOrder", jsOr (lookupKey d "ORC.8") .null),
    ("transactionDateTime", formatDate (jsOr (lookupKey d "ORC.9") (.str ""))),
    ("orderingPhysicianAddress", .obj [
      ("streetAddress", jsOr ((lookupKey d "ORC.24").get "ORC.24.1") .null),
      ("otherDesignation", jsOr ((lookupKey d "ORC.24").get "ORC.24.2") .null),
      ("city", jsOr ((lookupKey d "ORC.24").get "ORC.24.3") .null),
      ("province", jsOr ((lookupKey d "ORC.24").get "ORC.24.4") .null),
      ("postalCode", jsOr ((lookupKey d "ORC.24").get "ORC.24.5") .null),
      ("country", jsOr ((lookupKey d "ORC.24").get "ORC.24.6") .null)]),
    ("labResults", .arr [])]

/-- Embedding of `parseOBR` of parseHL7Message.js. -/
def parseOBR (segment : Segment) : Val :=
  let d := segment.data
  .obj [
    ("setId", jsOr (lookupKey d "OBR.1") (.str "")),
    ("placerOrderNumber", jsOr ((lookupKey d "OBR.2").get "OBR.2.1") (.str "")),
    ("fillerOrderNumber", .obj [
      ("id", jsOr ((lookupKey d "OBR.3").get "OBR.3.1") (.str "")),
      ("applicationId", jsOr ((lookupKey d "OBR.3").get "OBR.3.2") (.str ""))]),
    ("universalServiceId", .obj [
      ("gdmlTestCode", jsOr ((lookupKey d "OBR.4").get "OBR.4.1") (.str "")),
      ("testName", jsOr ((lookupKey d "OBR.4").get "OBR.4.2") (.str "")),
      ("mohTestCode", jsOr ((lookupKey d "OBR.4").get "OBR.4.3") (.str "")),
      ("department", jsOr ((lookupKey d "OBR.4").get "OBR.4.4") (.str ""))]),
    ("priority", jsOr (lookupKey d "OBR.5") (.str "")),
    ("requestedDateTime", formatDate (jsOr (lookupKey d "OBR.6") (.str ""))),
    ("collectionDateTime", formatDate (jsOr (lookupKey d "OBR.7") (.str ""))),
    ("observationEndDateTime", formatDate (jsOr (lookupKey d "OBR.8") .null)),
    ("collectionVolume", jsOr (lookupKey d "OBR.9") .null),
    ("collectorIdentifier", jsOr (lookupKey d "OBR.10") .null),
    ("specimenActionFlag", jsOr (lookupKey d "OBR.11") (.str "N")),
    ("dangerCode", jsOr (lookupKey d "OBR.12") .null),
    ("relevantClinicalInformation", jsOr (lookupKey d "OBR.13") .null),
    ("specimenReceivedDateTime", formatDate (jsOr (lookupKey d "OBR.14") .null)),
    ("specimenSource", jsOr (lookupKey d "OBR.15") .null),
    ("orderingPhysician", .obj [
      ("physician", jsOr ((lookupKey d "OBR.16").get "OBR.16.1") (.str "")),
      ("physicianName", jsOr ((lookupKey d "OBR.16").get "OBR.16.2") (.str "")),
      ("physicianOHIP", jsOr ((lookupKey d "OBR.16").get "OBR.16.3") (.str "")),
      ("familyName", jsOr ((lookupKey d "OBR.16").get "OBR.16.2") .null),
      ("firstInitial", jsOr ((lookupKey d "OBR.16").get "OBR.16.3") .null)]),
    ("orderCallbackPhoneNumber", jsOr (lookupKey d "OBR.17") .null),
    ("placerField1", jsOr (lookupKey d "OBR.18") .null),
    ("placerField2", jsOr (lookupKey d "OBR.19") .null),
    ("fillerField1", jsOr (lookupKey d "OBR.20") .null),
    ("fillerField2", jsOr (lookupKey d "OBR.21") .null),
    ("reportedDateTime", formatDate (jsOr (lookupKey d "OBR.22") (.str ""))),
    ("chargeToPractice", jsOr (lookupKey d "OBR.23") .null),
    ("diagnosticServiceSectionId", jsOr (lookupKey d "OBR.24") .null),
    ("resultStatus", jsOr (lookupKey d "OBR.25") (.str "")),
    ("parentResult", jsOr (lookupKey d "OBR.26") .null),
    ("quantityTiming", jsOr (lookupKey d "OBR.27") .null),
    ("resultCopiesTo", if (lookupKey d "OBR.28").truthy then
        .arr ((asArray (lookupKey d "OBR.28")).map fun copy => .obj [
          ("idNumber", jsOr (copy.get "OBR.28.1") (.str "")),
          ("familyName", jsOr (copy.get "OBR.28.2") (.str "")),
          ("givenName", jsOr (copy.get "OBR.28.3") (.str "")),
          ("assigningFacility", jsOr (copy.get "OBR.28.14") (.str ""))])
      else .arr []),
    ("parentNumber", jsOr (lookupKey d "OBR.29") .null),
    ("transportationMode", jsOr (lookupKey d "OBR.30") .null),
    ("reasonForStudy", jsOr (lookupKey d "OBR.31") .null),
    ("principalResultInterpreter", jsOr (lookupKey d "OBR.32") .null),
    ("assistantResultInterpreter", jsOr (lookupKey d "OBR.33") .null),
    ("technician", jsOr (lookupKey d "OBR.34") .null),
    ("transcriptionist", jsOr (lookupKey d "OBR.35") .null),
    ("scheduledDateTime", formatDate (jsOr (lookupKey d "OBR.36") .null)),
    ("numberOfSampleContainers", jsOr (lookupKey d "OBR.37") .null),
    ("transportLogistics", jsOr (lookupKey d "OBR.38") .null),
    ("collectorsComment", jsOr (lookupKey d "OBR.39") .null),
    ("transportArrangementResponsibility", jsOr (lookupKey d "OBR.40") .null),
    ("transportArranged", jsOr (lookupKey d "OBR.41") .null),
    ("escortRequired", jsOr (lookupKey d "OBR.42") .null),
    ("plannedPatientTransport", jsOr (lookupKey d "OBR.43") .null),
    ("observations", .arr []),
    ("notes", .arr [])]

/-- The inline-line-break marker `'\\.br\\'` stripped from observation
values. -/
def brMarker : String := "\\.br\\"

/-- Embedding of `Object.values(copy) || ''` as applied to a non-string tokenizer value in
the reference-range mapper: the field values of an object, or the elements of
an array (`Object.values` of an array is its element list; it always returns
an array, so the `|| ''` never fires).  A `null` receiver would fault in the
source; the tokenizer does not produce `null` repetition elements. -/
def objectValues : Val → Val
  | .obj fs => jsOr (.arr (fs.map Prod.snd)) (.str "")
  | .arr xs => jsOr (.arr xs) (.str "")
  | _ => jsOr (.arr []) (.str "")

/-- Embedding of `Array.prototype.flat()` by one level, as used on the reference-range
lines. -/
def flat1 : List Val → List Val
  | [] => []
  | .arr ys :: rest => ys ++ flat1 rest
  | v :: rest => v :: flat1 rest

/-- Embedding of `parseOBX` of parseHL7Message.js. -/
def parseOBX (segment : Segment) : Val :=
  let d := segment.data
  .obj [
    ("setId", jsOr (lookupKey d "OBX.1") (.str "")),
    ("valueType", jsOr (lookupKey d "OBX.2") (.str "")),
    ("observationIdentifier", .obj [
      ("gdmlTestCode", jsOr ((lookupKey d "OBX.3").get "OBX.3.1") (.str "")),
      ("testComponentId", jsOr (((lookupKey d "OBX.3").get "OBX.3.1").get "OBX.3.1.2")
        (.str "")),
      ("testName", jsOr ((lookupKey d "OBX.3").get "OBX.3.2")
        (jsOr ((lookupKey d "OBX.3").get "OBX.3.3") (.str ""))),
      ("altIdentCode", jsOr ((lookupKey d "OBX.3").get "OBX.3.4") (.str "")),
      ("altIdentTxt", jsOr ((lookupKey d "OBX.3").get "OBX.3.5") (.str "")),
      ("altIdentCoding", jsOr ((lookupKey d "OBX.3").get "OBX.3.6") (.str ""))]),
    ("observationSubId", jsOr (lookupKey d "OBX.4") (.str "")),
    ("observationResults", if (lookupKey d "OBX.5").truthy then
        .arr (((asArray (lookupKey d "OBX.5")).map fun copy =>
          Val.str (replaceFirstWithEmpty
            (jsToString (jsOr (copy.get "OBX.5.1") (jsOr copy (.str "")))) brMarker)
          ).filter Val.truthy)
      else .arr []),
    ("units", jsOr (lookupKey d "OBX.6") (.str "")),
    ("referenceRange", .obj [
      ("lines", if (lookupKey d "OBX.7").truthy then
          .arr (((flat1 ((asArray (lookupKey d "OBX.7")).map fun copy =>
            match copy with
            | .str s => .str s
            | v => objectValues v)).map fun copy =>
              Val.str (replaceFirstWithEmpty (jsToString copy) brMarker)
            ).filter Val.truthy)
        else .arr []),
      ("legacy", jsOr ((lookupKey d "OBX.7").get "OBX.7.1") (.str "")),
      ("formatted", jsOr ((lookupKey d "OBX.7").get "OBX.7.2") (.str "")),
      ("lowValue", jsOr ((lookupKey d "OBX.7").get "OBX.7.3") (.str "")),
      ("highValue", jsOr ((lookupKey d "OBX.7").get "OBX.7.4") (.str ""))]),
    ("abnormalFlag", jsOr (lookupKey d "OBX.8") (.str "")),
    ("probability", jsOr (lookupKey d "OBX.9") .null),
    ("observationResultStatusLegacy", jsOr (lookupKey d "OBX.10") (.str "")),
    ("observationResultStatus", jsOr (lookupKey d "OBX.11") (.str "")),
    ("dateLastObservedNormalValues", formatDate (jsOr (lookupKey d "OBX.12") .null)),
    ("userDefinedAccessChecks", jsOr (lookupKey d "OBX.13") .null),
    ("dateTimeOfObservation", formatDate (jsOr (lookupKey d "OBX.14") .null)),
    ("producersId", jsOr (lookupKey d "OBX.15") .null),
    ("responsibleObserver", jsOr (lookupKey d "OBX.16") .null),
    ("observationMethod", jsOr (lookupKey d "OBX.17") .null),
    ("notes", .arr [])]

/-- Embedding of `parseNTE` of parseHL7Message.js. -/
def parseNTE (segment : Segment) : Val :=
  let d := segment.data
  .obj [
    ("setId", jsOr (lookupKey d "NTE.1") (.str "")),
    ("commentOrSource", jsOr (lookupKey d "NTE.2") (.str "")),
    ("comment", jsOr (lookupKey d "NTE.3") (.str "")),
    ("comment2", jsOr (lookupKey d "NTE.4") (.str ""))]

/-- Embedding of `parseZEX` of parseHL7Message.js. -/
def parseZEX (segment : Segment) : Val :=
  let d := segment.data
  .obj [
    ("setId", jsOr (lookupKey d "ZEX.1") (.str "")),
    ("exceptionCode", jsOr (lookupKey d "ZEX.2") (.str "")),
    ("exceptionText", jsOr (lookupKey d "ZEX.3") (.str "")),
    ("pidId", jsOr (lookupKey d "ZEX.4") .null),
    ("obrId", jsOr (lookupKey d "ZEX.5") .null),
    ("obxId", jsOr (lookupKey d "ZEX.6") .null)]

/-- Embedding of `parseZTX` of parseHL7Message.js. -/
def parseZTX (segment : Segment) : Val :=
  let d := segment.data
  .obj [
    ("location", jsOr (lookupKey d "ZTX.1") .null),
    ("requisitionNumber", jsOr (lookupKey d "ZTX.2") .null),
    ("clientReferenceNumber", jsOr (lookupKey d "ZTX.3") .null),
    ("toxicologyCollectionSite", jsOr (lookupKey d "ZTX.4") .null),
    ("toxicologyCompanyNumber", jsOr (lookupKey d "ZTX.5") .null),
    ("toxicologyCompanyName", jsOr (lookupKey d "ZTX.6") .null),
    ("collectorsName", jsOr (lookupKey d "ZTX.7") .null),
    ("collectionSiteName", jsOr (lookupKey d "ZTX.8") .null),
    ("collectionSiteAddress1", jsOr (lookupKey d "ZTX.9") .null),
    ("collectionSiteAddress2", jsOr (lookupKey d "ZTX.10") .null),
    ("collectionSiteCity", jsOr (lookupKey d "ZTX.11") .null),
    ("collectionSiteProvince", jsOr (lookupKey d "ZTX.12") .null),
    ("collectionSitePostalCode", jsOr (lookupKey d "ZTX.13") .null),
    ("toxicologySecondarySpecimenId", jsOr (lookupKey d "ZTX.14") .null)]

/-- Embedding of `parseZCT` of parseHL7Message.js. -/
def parseZCT (segment : Segment) : Val :=
  let d := segment.data
  .obj [
    ("location", jsOr (lookupKey d "ZCT.1") .null),
    ("requisitionNumber", jsOr (lookupKey d "ZCT.2") .null),
    ("studyNumber", jsOr (lookupKey d "ZCT.3") .null),
    ("investigatorSite", jsOr (lookupKey d "ZCT.4") .null),
    ("subjectNumber", jsOr (lookupKey d "ZCT.5") .null),
    ("clinicalTrialSubjectInitials", jsOr (lookupKey d "ZCT.6") .null),
    ("screeningNumber", jsOr (lookupKey d "ZCT.7") .null),
    ("randomizationNumber", jsOr (lookupKey d "ZCT.8") .null),
    ("visitNumber", jsOr (lookupKey d "ZCT.9") .null),
    ("visitName", jsOr (lookupKey d "ZCT.10") .null),
    ("visitType", jsOr (lookupKey d "ZCT.11") .null)]

/-- Embedding of `parseZCY` of parseHL7Message.js. -/
def parseZCY (segment : Segment) : Val :=
  let d := segment.data
  .obj [
    ("location", jsOr (lookupKey d "ZCY.1") .null),
    ("requisitionNumber", jsOr (lookupKey d "ZCY.2") .null),
    ("pathologist", jsOr (lookupKey d "ZCY.3") .null)]

/-- Embedding of `parseZPI` of parseHL7Message.js. -/
def parseZPI (segment : Segment) : Val :=
  let d := segment.data
  .obj [
    ("ticket", jsOr (lookupKey d "ZPI.1") (.str "")),
    ("policyNumber", jsOr (lookupKey d "ZPI.2") .null),
    ("examinerCode", jsOr (lookupKey d "ZPI.3") .null),
    ("insuranceType", jsOr (lookupKey d "ZPI.4") .null),
    ("insuranceAmount", jsOr (lookupKey d "ZPI.5") .null),
    ("dateTimeLastFoodTaken", formatDate (jsOr (lookupKey d "ZPI.6") .null)),
    ("insuranceAgent", jsOr (lookupKey d "ZPI.7") .null),
    ("agentProvinceCode", jsOr (lookupKey d "ZPI.8") .null),
    ("examiningCompany", jsOr (lookupKey d "ZPI.9") .null),
    ("examiningProvinceCode", jsOr (lookupKey d "ZPI.10") .null),
    ("specimenTemperature", jsOr (lookupKey d "ZPI.11") .null),
    ("mensusFlag", jsOr (lookupKey d "ZPI.12") .null)]

mutual

/-- Embedding of `removeEmptyFields` of parseHL7Message.js, as a pure function on the
object graph it mutates: arrays recurse into each element (elements are never
removed); objects delete every key whose value is `null`/`undefined`/`''` and
recurse into the kept values; all other values (including `null`, over which
the source's `for...in` loop iterates zero times) are untouched. -/
def removeEmptyFields : Val → Val
  | .arr xs => .arr (pruneElems xs)
  | .obj fs => .obj (pruneFields fs)
  | v => v

/-- Embedding of `arrayOrObject.forEach(item => removeEmptyFields(item))`. -/
def pruneElems : List Val → List Val
  | [] => []
  | x :: rest => removeEmptyFields x :: pruneElems rest

/-- The `for (const key in arrayOrObject)` loop: delete empty-valued keys,
recurse into the rest. -/
def pruneFields : List (String × Val) → List (String × Val)
  | [] => []
  | (k, v) :: rest =>
      if isEmptyField v then pruneFields rest
      else (k, removeEmptyFields v) :: pruneFields rest

end

/-- The hierarchical-assembler state of `parseHL7Message`: the parsed header,
the closed patients in source order, and the still-growing current
patient/order/lab-result/observation (kept out of their parent's list until
they stop growing — see the module comment) together with the current
notes-list target. -/
structure AState where
  messageHeader : Option Val
  donePatients : List Val
  currentPatient : Option Val
  currentOrder : Option Val
  currentLabResult : Option Val
  currentOBX : Option Val
  currentNTEContext : NCtx

/-- The state before any segment is processed. -/
def initState : AState :=
  ⟨none, [], none, none, none, none, .nul⟩

/-- One iteration of the `segments.forEach` switch of `parseHL7Message`. -/
def step (st : AState) (segment : Segment) : AState :=
  match segment.type with
  | "MSH" => { st with messageHeader := some (parseMSH segment) }
  | "PID" =>
      { messageHeader := st.messageHeader
        donePatients := st.donePatients ++ (closePatient st.currentPatient
          st.currentOrder st.currentLabResult st.currentOBX).toList
        currentPatient := some (parsePID segment)
        currentOrder := none, currentLabResult := none, currentOBX := none
        currentNTEContext := .pat }
  | "ZDR" =>
      { st with currentPatient :=
          st.currentPatient.map (·.pushToArrKey "zdrs" (parseZDR segment)) }
  | "ZEX" =>
      { st with currentPatient :=
          st.currentPatient.map (·.pushToArrKey "exceptions" (parseZEX segment)) }
  | "ZTX" =>
      { st with currentPatient := st.currentPatient.map (·.pushToArrKey "forensicToxicologyOrders" (parseZTX segment)) }
  | "ZCT" =>
      { st with currentPatient := st.currentPatient.map (·.pushToArrKey "clinicalTrialsOrders" (parseZCT segment)) }
  | "ZCY" =>
      { st with currentPatient :=
          st.currentPatient.map (·.pushToArrKey "cytologyOrders" (parseZCY segment)) }
  | "ZPI" =>
      { st with currentPatient := st.currentPatient.map (·.pushToArrKey "privateInsuranceOrders" (parseZPI segment)) }
  | "ORC" =>
      match st.currentPatient with
      | none => st
      | some p =>
          let p' := match closeOrder st.currentOrder st.currentLabResult
              st.currentOBX with
            | some od => p.pushToArrKey "orders" od
            | none => p
          { st with
            currentPatient := some p'
            currentOrder := some (parseORC segment)
            currentLabResult := none, currentOBX := none
            currentNTEContext := .nul }
  | "OBR" =>
      match st.currentPatient with
      | none => st
      | some _ =>
          let base := st.currentOrder.getD (.obj [("labResults", .arr [])])
          let od' := match closeResult st.currentLabResult st.currentOBX with
            | some r => base.pushToArrKey "labResults" r
            | none => base
          { st with
            currentOrder := some od'
            currentLabResult := some (parseOBR segment)
            currentOBX := none, currentNTEContext := .res }
  | "OBX" =>
      match st.currentLabResult with
      | none => st
      | some r =>
          let r' := match st.currentOBX with
            | some o => r.pushToArrKey "observations" o
            | none => r
          { st with
            currentLabResult := some r'
            currentOBX := some (parseOBX segment), currentNTEContext := .obx }
  | "NTE" =>
      match st.currentNTEContext with
      | .nul => st
      | .pat =>
          { st with currentPatient :=
              st.currentPatient.map (·.pushToArrKey "notes" (parseNTE segment)) }
      | .res =>
          { st with currentLabResult :=
              st.currentLabResult.map (·.pushToArrKey "notes" (parseNTE segment)) }
      | .obx =>
          { st with currentOBX :=
              st.currentOBX.map (·.pushToArrKey "notes" (parseNTE segment)) }
  | _ => st

/-- The result object built after the segment walk:
`{ messageHeader: messageHeader || {}, patients }` (the source's
`patients.length > 0 ? patients : []` is the identity). -/
def assemble (st : AState) : Val :=
  .obj [
    ("messageHeader", jsOr (st.messageHeader.getD .null) (.obj [])),
    ("patients", .arr (st.donePatients ++ (closePatient st.currentPatient
      st.currentOrder st.currentLabResult st.currentOBX).toList))]

/-- Embedding of `parseHL7Message` of parseHL7Message.js over the tokenizer interface:
tokenize, walk the segments in source order, assemble, and prune empty fields
when requested (the JS default is `shouldRemoveEmptyFields = true`). -/
def parseHL7Message (input : List Segment) (shouldRemoveEmptyFields : Bool) :
    Except ParseError Val :=
  match tokenize input with
  | .error e => .error e
  | .ok segments =>
      let result := assemble (segments.foldl step initState)
      .ok (if shouldRemoveEmptyFields then removeEmptyFields result else result)

end GDML

/-! ## `src/lab-results/src/utils/parseEMRHL7Message.js` (EMR dialect) -/

namespace EMR

/-- The rich-text marker token `'\\E\\rtf1\\E'` whose presence in an
encapsulated payload marks a BC RTF report. -/
def rtfMarker : String := "\\E\\rtf1\\E"

/-- Embedding of `determineReportType` of parseEMRHL7Message.js: the fixed
diagnostic-service-code table, unmapped codes degrading to `"Other"`.  The
JS object lookup `reportTypeMap[diagnosticService]` coerces its key to a
string. -/
def determineReportType (diagnosticService : Val) : String :=
  match jsToString diagnosticService with
  | "LAB" => "Laboratory"
  | "MB" => "Microbiology"
  | "CH" => "Chemistry"
  | "HM" => "Hematology"
  | "PAT" => "Pathology"
  | "RAD" => "Radiology"
  | "NM" => "Nuclear Medicine"
  | "ECG" => "Cardiology"
  | "TRN" => "Transcription"
  | "DG" => "Diagnostic Imaging"
  | "CD" => "Clinical Documents"
  | "EN" => "Notifications"
  | _ => "Other"

/-- Embedding of `checkIfRTFReport` of parseEMRHL7Message.js: exactly one OBX segment,
whose value type is `'ED'` and whose `OBX.5` payload is a truthy string
containing the rich-text marker. -/
def checkIfRTFReport (segments : List Segment) : Bool :=
  match segments.filter (fun s => s.type == "OBX") with
  | [x] =>
      strictEqStr (lookupKey x.data "OBX.2") "ED" &&
      strPayloadContains (lookupKey x.data "OBX.5") rtfMarker
  | _ => false

/-- Embedding of `checkIfPDFReport` of parseEMRHL7Message.js: report type Transcription or
Cardiology, exactly one OBX segment, and its value type is `'ED'`. -/
def checkIfPDFReport (segments : List Segment) (reportType : Val) : Bool :=
  if strictEqStr reportType "Transcription"
      || strictEqStr reportType "Cardiology" then
    match segments.filter (fun s => s.type == "OBX") with
    | [x] => strictEqStr (lookupKey x.data "OBX.2") "ED"
    | _ => false
  else false

/-- Embedding of `formatDate` of parseEMRHL7Message.js (textually identical to the GDML
one). -/
def formatDate (date : Val) : Val :=
  if ¬ date.truthy then .str ""
  else
    match date with
    | .str s =>
        let year := jsSubstring s 0 4
        let month := jsSubstring s 4 6
        let day := jsSubstring s 6 8
        let hour := if jsSubstring s 8 10 = "" then "00" else jsSubstring s 8 10
        let minute := if jsSubstring s 10 12 = "" then "00" else jsSubstring s 10 12
        let second := if jsSubstring s 12 14 = "" then "00" else jsSubstring s 12 14
        .str (year ++ "-" ++ month ++ "-" ++ day ++ "T" ++ hour ++ ":" ++ minute
          ++ ":" ++ second)
    | _ => .str ""

/-- Embedding of `parseMSH` of parseEMRHL7Message.js; `isOntarioFormat` is the (possibly
non-boolean) value of the dialect-detection expression and is only used for
its truthiness. -/
def parseMSH (segment : Segment) (isOntarioFormat : Val) : Val :=
  let d := segment.data
  .obj [
    ("fieldSeparator", jsOr (lookupKey d "MSH.1") (.str "|")),
    ("encodingCharacters", jsOr (lookupKey d "MSH.2") (.str "^~\\&")),
    ("sendingApplication", jsOr (lookupKey d "MSH.3") (.str "")),
    ("sendingFacility", .obj [
      ("namespaceID", jsOr ((lookupKey d "MSH.4").get "MSH.4.1") (.str "")),
      ("universalID", jsOr ((lookupKey d "MSH.4").get "MSH.4.2") (.str ""))]),
    ("receivingApplication", jsOr (lookupKey d "MSH.5") (.str "")),
    ("receivingFacility", jsOr (lookupKey d "MSH.6") (.str "")),
    ("messageDateTime", formatDate (jsOr (lookupKey d "MSH.7") (.str ""))),
    ("messageType", .obj [
      ("messageCode", jsOr ((lookupKey d "MSH.9").get "MSH.9.1") (.str "ORU")),
      ("triggerEvent", jsOr ((lookupKey d "MSH.9").get "MSH.9.2") (.str "R01"))]),
    ("messageControlId", jsOr (lookupKey d "MSH.10") (.str "")),
    ("processingId", jsOr (lookupKey d "MSH.11") (.str "P")),
    ("versionId", jsOr (lookupKey d "MSH.12")
      (.str (if isOntarioFormat.truthy then "2.3.1" else "2.3")))]

/-- Embedding of `parsePID` of parseEMRHL7Message.js: the Ontario (HL7 v2.3.1) branch and
the BC (HL7 v2.3) branch. -/
def parsePID (segment : Segment) (isOntarioFormat : Val) : Val :=
  let d := segment.data
  if isOntarioFormat.truthy then
    .obj [
      ("patientIdExternal", .arr (
        match lookupKey d "PID.3" with
        | .arr xs => xs.map fun (id : Val) => .obj [
            ("uniqueIdentifier", jsOr (id.get "PID.3.1") (.str "")),
            ("assigningAuthority", jsOr (id.get "PID.3.4") (.str "")),
            ("identifierTypeCode", jsOr (id.get "PID.3.5") (.str "")),
            ("assigningJurisdiction", jsOr (id.get "PID.3.9") (.str "")),
            ("idVersionCode", jsOr (id.get "PID.3.11") (.str ""))]
        | v => [.obj [
            ("uniqueIdentifier", jsOr (v.get "PID.3.1") (.str "")),
            ("assigningAuthority", jsOr (v.get "PID.3.4") (.str "")),
            ("identifierTypeCode", jsOr (v.get "PID.3.5") (.str "")),
            ("assigningJurisdiction", jsOr (v.get "PID.3.9") (.str "")),
            ("idVersionCode", jsOr (v.get "PID.3.11") (.str ""))]])),
      ("alternatePatientId", jsOr (lookupKey d "PID.4") (.str "")),
      ("names", .arr (
        match lookupKey d "PID.5" with
        | .arr xs => xs.map fun (name : Val) => .obj [
            ("familyName", jsOr (name.get "PID.5.1") (.str "")),
            ("givenName", jsOr (name.get "PID.5.2") (.str "")),
            ("middleName", jsOr (name.get "PID.5.3") (.str "")),
            ("nameType", .str "L")]
        | v => [.obj [
            ("familyName", jsOr (v.get "PID.5.1") (.str "")),
            ("givenName", jsOr (v.get "PID.5.2") (.str "")),
            ("middleName", jsOr (v.get "PID.5.3") (.str "")),
            ("nameType", .str "L")]])),
      ("dateOfBirth", formatDate (jsOr (lookupKey d "PID.7") (.str ""))),
      ("sex", jsOr (lookupKey d "PID.8") (.str "")),
      ("addresses", .arr (
        match lookupKey d "PID.11" with
        | .arr xs => xs.map fun (addr : Val) => .obj [
            ("street", jsOr (addr.get "PID.11.1") (.str "")),
            ("otherDesignation", jsOr (addr.get "PID.11.2") (.str "")),
            ("city", jsOr (addr.get "PID.11.3") (.str "")),
            ("province", jsOr (addr.get "PID.11.4") (.str "")),
            ("postalCode", jsOr (addr.get "PID.11.5") (.str "")),
            ("country", jsOr (addr.get "PID.11.6") (.str ""))]
        | _ => [])),
      ("phoneNumbers", .arr ((
        match lookupKey d "PID.13" with
        | .arr xs => xs.map fun (phone : Val) => jsOr (phone.get "PID.13.1") (.str "")
        | v => [jsOr (v.get "PID.13.1") (.str "")]).filter Val.truthy)),
      ("notes", .arr [])]
  else
    .obj [
      ("patientIdInternal", jsOr (lookupKey d "PID.2") (.str "")),
      ("patientIdExternal", .arr (
        match lookupKey d "PID.3" with
        | .arr xs => xs
        | v => [jsOr v (.str "")])),
      ("alternatePatientId", jsOr (lookupKey d "PID.4") (.str "")),
      ("names", .arr [.obj [
        ("familyName", jsOr ((lookupKey d "PID.5").get "PID.5.1") (.str "")),
        ("givenName", jsOr ((lookupKey d "PID.5").get "PID.5.2") (.str "")),
        ("middleName", jsOr ((lookupKey d "PID.5").get "PID.5.3") (.str ""))]]),
      ("dateOfBirth", formatDate (jsOr (lookupKey d "PID.7") (.str ""))),
      ("sex", jsOr (lookupKey d "PID.8") (.str "")),
      ("addresses", if (lookupKey d "PID.11").truthy then
          .arr [.obj [
            ("street", jsOr ((lookupKey d "PID.11").get "PID.11.1") (.str "")),
            ("city", jsOr ((lookupKey d "PID.11").get "PID.11.3") (.str "")),
            ("province", jsOr ((lookupKey d "PID.11").get "PID.11.4") (.str "")),
            ("postalCode", jsOr ((lookupKey d "PID.11").get "PID.11.5") (.str ""))]]
        else .arr []),
      ("phoneNumbers", .arr [jsOr (lookupKey d "PID.13") (.str "")]),
      ("notes", .arr [])]

/-- Embedding of `parsePV1` of parseEMRHL7Message.js (Ontario only). -/
def parsePV1 (segment : Segment) : Val :=
  let d := segment.data
  .obj [
    ("patientClass", jsOr (lookupKey d "PV1.2") (.str "")),
    ("patientLocationId", jsOr (lookupKey d "PV1.3") (.str ""))]

/-- Embedding of `parseORC` of parseEMRHL7Message.js. -/
def parseORC (segment : Segment) (isOntarioFormat : Val) : Val :=
  let d := segment.data
  let orderingPhysician :=
    if (lookupKey d "ORC.12").truthy then
      Val.obj [
        ("physician", jsOr ((lookupKey d "ORC.12").get "ORC.12.1") (.str "")),
        ("physicianName", jsOr ((lookupKey d "ORC.12").get "ORC.12.2") (.str "")),
        ("familyName", jsOr ((lookupKey d "ORC.12").get "ORC.12.2") (.str "")),
        ("firstInitial", jsOr ((lookupKey d "ORC.12").get "ORC.12.3") (.str ""))]
    else Val.obj []
  if isOntarioFormat.truthy then
    .obj [
      ("orderControl", jsOr (lookupKey d "ORC.1") (.str "")),
      ("fillerOrderNumber", jsOr (lookupKey d "ORC.3") (.str "")),
      ("patientIdExternal", .obj [
        ("uniqueId", jsOr ((lookupKey d "ORC.4").get "ORC.4.1") (.str "")),
        ("fillerApplicationId", jsOr ((lookupKey d "ORC.4").get "ORC.4.2") (.str ""))]),
      ("orderStatus", jsOr (lookupKey d "ORC.5") (.str "")),
      ("orderControlCodeReason", if (lookupKey d "ORC.16").truthy then
          .obj [
            ("code", jsOr ((lookupKey d "ORC.16").get "ORC.16.1") (.str "")),
            ("reason", jsOr ((lookupKey d "ORC.16").get "ORC.16.2") (.str ""))]
        else .null),
      ("orderingPhysician", orderingPhysician),
      ("labResults", .arr [])]
  else
    .obj [
      ("orderControl", jsOr (lookupKey d "ORC.1") (.str "")),
      ("fillerOrderNumber", jsOr (lookupKey d "ORC.3") (.str "")),
      ("patientIdExternal", .obj [
        ("uniqueId", jsOr (jsOr ((lookupKey d "ORC.4").get "ORC.4.1")
          (lookupKey d "ORC.4")) (.str "")),
        ("fillerApplicationId", jsOr ((lookupKey d "ORC.4").get "ORC.4.2") (.str ""))]),
      ("orderStatus", jsOr (lookupKey d "ORC.5") (.str "")),
      ("orderingPhysician", orderingPhysician),
      ("labResults", .arr [])]

/-- Embedding of `parseOBR` of parseEMRHL7Message.js. -/
def parseOBR (segment : Segment) (isOntarioFormat : Val) : Val :=
  let d := segment.data
  let baseObj := Val.obj [
    ("placerOrderNumber", jsOr (lookupKey d "OBR.2") (.str "")),
    ("fillerOrderNumber", jsOr (lookupKey d "OBR.3") (.str "")),
    ("universalServiceId", .obj [
      ("gdmlTestCode", jsOr ((lookupKey d "OBR.4").get "OBR.4.1") (.str "")),
      ("testName", jsOr ((lookupKey d "OBR.4").get "OBR.4.2") (.str ""))]),
    ("requestedDateTime", formatDate (jsOr (lookupKey d "OBR.6") (.str ""))),
    ("collectionDateTime", formatDate (jsOr (lookupKey d "OBR.7") (.str ""))),
    ("specimenReceivedDateTime", formatDate (jsOr (lookupKey d "OBR.14") (.str ""))),
    ("orderingPhysician", if (lookupKey d "OBR.16").truthy then
        .obj [
          ("physician", jsOr ((lookupKey d "OBR.16").get "OBR.16.1") (.str "")),
          ("physicianName", jsOr ((lookupKey d "OBR.16").get "OBR.16.2") (.str "")),
          ("familyName", jsOr ((lookupKey d "OBR.16").get "OBR.16.2") (.str "")),
          ("firstInitial", jsOr ((lookupKey d "OBR.16").get "OBR.16.3") (.str ""))]
      else .obj []),
    ("reportedDateTime", formatDate (jsOr (lookupKey d "OBR.22") (.str ""))),
    ("diagnosticServiceSectionId", jsOr (lookupKey d "OBR.24") (.str "")),
    ("resultStatus", jsOr (lookupKey d "OBR.25") (.str "")),
    ("resultCopiesTo", if (lookupKey d "OBR.28").truthy then
        match lookupKey d "OBR.28" with
        | .arr xs => .arr (xs.map fun (copyTo : Val) => .obj [
            ("idNumber", jsOr (copyTo.get "OBR.28.1") (.str "")),
            ("familyName", jsOr (copyTo.get "OBR.28.2") (.str "")),
            ("givenName", jsOr (copyTo.get "OBR.28.3") (.str "")),
            ("assigningFacility", jsOr (copyTo.get "OBR.28.14") (.str ""))])
        | v => .arr [.obj [
            ("idNumber", jsOr (v.get "OBR.28.1") (.str "")),
            ("familyName", jsOr (v.get "OBR.28.2") (.str "")),
            ("givenName", jsOr (v.get "OBR.28.3") (.str "")),
            ("assigningFacility", jsOr (v.get "OBR.28.14") (.str ""))]]
      else .arr []),
    ("observations", .arr []),
    ("notes", .arr [])]
  if isOntarioFormat.truthy then
    baseObj.setKey "fillerOrderSource" (jsOr ((lookupKey d "OBR.3").get "OBR.3.2") (.str ""))
  else baseObj

/-- Embedding of `processObservationValue` of parseEMRHL7Message.js: falsy values map to
`''`; in an RTF report a string payload containing the rich-text marker is
returned whole when `includeRTFContent` is set and replaced by the sentinel
`'RTF_CONTENT_AVAILABLE'` otherwise; in a PDF report a string payload
containing `'ED'` is replaced by `'PDF_CONTENT_AVAILABLE'`; every other value
is handled as a regular observation value (arrays map each element to its
first non-empty sub-part and drop falsy results; JS `typeof item === 'object'`
is also true of arrays and `null`). -/
def processObservationValue (value : Val) (isRTFReport isPDFReport
    includeRTFContent : Bool) : Val :=
  if ¬ value.truthy then .str ""
  else if isRTFReport &&
      (match value with | .str s => strContains s rtfMarker | _ => false) then
    if includeRTFContent then value else .str "RTF_CONTENT_AVAILABLE"
  else if isPDFReport &&
      (match value with | .str s => strContains s "ED" | _ => false) then
    .str "PDF_CONTENT_AVAILABLE"
  else
    match value with
    | .arr xs => .arr ((xs.map fun (item : Val) =>
        match item with
        | .str _ => jsOr item (.str "")
        | .bool _ => jsOr item (.str "")
        | _ => jsOr (item.get "OBX.5.1") (jsOr (item.get "OBX.5.2") (.str ""))
        ).filter Val.truthy)
    | .obj _ => jsOr (value.get "OBX.5.1") (jsOr (value.get "OBX.5.2") (.str ""))
    | _ => jsOr value (.str "")

/-- Embedding of `parseOBX` of parseEMRHL7Message.js, including the Ontario-specific
`producersId` adjustment built from `OBX.15` via `?.slice(1)` and numeric
indexing. -/
def parseOBX (segment : Segment) (isOntarioFormat : Val) (isRTFReport
    isPDFReport includeRTFContent : Bool) : Val :=
  let d := segment.data
  let baseObj := Val.obj [
    ("setId", jsOr (lookupKey d "OBX.1") (.str "")),
    ("valueType", jsOr (lookupKey d "OBX.2") (.str "")),
    ("observationIdentifier", .obj [
      ("identifier", jsOr ((lookupKey d "OBX.3").get "OBX.3.1") (.str "")),
      ("text", jsOr ((lookupKey d "OBX.3").get "OBX.3.2") (.str "")),
      ("codingSystem", jsOr ((lookupKey d "OBX.3").get "OBX.3.3") (.str ""))]),
    ("observationSubId", jsOr (lookupKey d "OBX.4") (.str "")),
    ("observationResults", processObservationValue (lookupKey d "OBX.5")
      isRTFReport isPDFReport includeRTFContent),
    ("units", jsOr (lookupKey d "OBX.6") (.str "")),
    ("referenceRange", jsOr (lookupKey d "OBX.7") (.str "")),
    ("abnormalFlags", jsOr (lookupKey d "OBX.8") (.str "")),
    ("observationResultStatus", jsOr (lookupKey d "OBX.11") (.str "")),
    ("dateTimeOfObservation", formatDate (jsOr (lookupKey d "OBX.14") (.str ""))),
    ("notes", .arr [])]
  if isOntarioFormat.truthy then
    let obx152 := (lookupKey d "OBX.15").get "OBX.15.2"
    let addressArray := obx152.jsSlice1
    baseObj.setKey "producersId" (.obj [
      ("id", jsOr ((lookupKey d "OBX.15").get "OBX.15.1") (.str "")),
      ("name", jsOr (obx152.jsAt 0) (.str "")),
      ("address", if addressArray.truthy then
          .obj [
            ("street", jsOr (addressArray.jsAt 0) (.str "")),
            ("apt", jsOr (addressArray.jsAt 1) (.str "")),
            ("city", jsOr (addressArray.jsAt 2) (.str "")),
            ("province", jsOr (addressArray.jsAt 3) (.str "")),
            ("postalCode", jsOr (addressArray.jsAt 4) (.str "")),
            ("country", jsOr (addressArray.jsAt 5) (.str ""))]
        else .obj [])])
  else baseObj

/-- Embedding of `parseNTE` of parseEMRHL7Message.js. -/
def parseNTE (segment : Segment) : Val :=
  let d := segment.data
  .obj [
    ("setId", jsOr (lookupKey d "NTE.1") (.str "")),
    ("sourceOfComment", jsOr (lookupKey d "NTE.2") (.str "")),
    ("comment", jsOr (lookupKey d "NTE.3") (.str ""))]

mutual

/-- Embedding of `removeEmptyFields` of parseEMRHL7Message.js, as a pure function on the
object graph it mutates (textually identical to the GDML one except for an
explicit `!== null` guard that only avoids iterating over `null`, which the
GDML version's `for...in` loop also does zero times). -/
def removeEmptyFields : Val → Val
  | .arr xs => .arr (pruneElems xs)
  | .obj fs => .obj (pruneFields fs)
  | v => v

/-- Embedding of `arrayOrObject.forEach(item => removeEmptyFields(item))`. -/
def pruneElems : List Val → List Val
  | [] => []
  | x :: rest => removeEmptyFields x :: pruneElems rest

/-- The `for (const key in arrayOrObject)` loop: delete empty-valued keys,
recurse into the rest. -/
def pruneFields : List (String × Val) → List (String × Val)
  | [] => []
  | (k, v) :: rest =>
      if isEmptyField v then pruneFields rest
      else (k, removeEmptyFields v) :: pruneFields rest

end

/-- The dialect-detection expression
`mshSegment && mshSegment.data['MSH.12'] && mshSegment.data['MSH.12'].includes('2.3.1')`:
`undefined` when no MSH segment exists, otherwise the falsy `MSH.12` value
itself, otherwise the boolean result of `includes` (on a string, substring
containment; on an array, element membership). -/
def isOntarioFormatVal (segments : List Segment) : Val :=
  match segments.find? (fun s => s.type == "MSH") with
  | none => .null
  | some m =>
      let v12 := lookupKey m.data "MSH.12"
      if v12.truthy then
        match v12 with
        | .str s => .bool (strContains s "2.3.1")
        | .arr xs => .bool (xs.any fun v =>
            match v with
            | .str s => s == "2.3.1"
            | _ => false)
        | _ => .null
      else v12

/-- The early report-type extraction of `parseEMRHL7Message`: the `OBR.24`
value of the first OBR segment, run through `determineReportType` when
truthy; `null` otherwise. -/
def reportTypeVal (segments : List Segment) : Val :=
  match segments.find? (fun s => s.type == "OBR") with
  | none => .null
  | some o =>
      let ds := lookupKey o.data "OBR.24"
      if ds.truthy then .str (determineReportType ds) else .null

/-- The PID case of `parseEMRHL7Message`'s segment walk: the parsed patient
with the metadata properties (`sourceFormat`, and for document reports
`isReportDocument`/`documentType`/`reportType`) assigned onto it. -/
def mkPatient (segment : Segment) (isOntarioFormat : Val) (isRTFReport
    isPDFReport : Bool) (reportType : Val) : Val :=
  let p := (parsePID segment isOntarioFormat).setKey "sourceFormat"
    (.str (if isOntarioFormat.truthy then "Ontario" else "BC"))
  if isRTFReport || isPDFReport then
    ((p.setKey "isReportDocument" (.bool true)).setKey "documentType"
      (.str (if isRTFReport then "RTF" else "PDF"))).setKey "reportType" reportType
  else p

/-- The hierarchical-assembler state of `parseEMRHL7Message`.  Unlike the
GDML parser, a PID segment neither closes the previous patient (it is simply
overwritten and lost) nor resets the current order/result pointers; the
in-flight order subtree then belongs to the dropped patient, which
`orderAttached = false` records: it keeps growing but is never flushed into
the new patient. -/
structure AState where
  messageHeader : Option Val
  patient : Option Val
  currentOrder : Option Val
  currentResult : Option Val
  currentOBX : Option Val
  orderAttached : Bool
  currentNTEContext : NCtx

/-- The state before any segment is processed. -/
def initState : AState :=
  ⟨none, none, none, none, none, false, .nul⟩

/-- One iteration of the `segments.forEach` switch of `parseEMRHL7Message`;
the dialect value, the document-report census flags and the report type are
computed once before the walk and are constant across it. -/
def step (isOntarioFormat : Val) (isRTFReport isPDFReport : Bool)
    (reportType : Val) (includeRTFContent : Bool)
    (st : AState) (segment : Segment) : AState :=
  match segment.type with
  | "MSH" =>
      { st with messageHeader := some (parseMSH segment isOntarioFormat) }
  | "PID" =>
      { st with
        patient := some (mkPatient segment isOntarioFormat isRTFReport
          isPDFReport reportType)
        orderAttached := false
        currentNTEContext := .pat }
  | "PV1" =>
      if st.patient.isSome && isOntarioFormat.truthy then
        { st with patient := st.patient.map (·.setKey "location" (parsePV1 segment)) }
      else st
  | "ORC" =>
      match st.patient with
      | none => st
      | some p =>
          let p' := if st.orderAttached then
              match closeOrder st.currentOrder st.currentResult st.currentOBX with
              | some od => p.pushToArrKey "orders" od
              | none => p
            else p
          { st with
            patient := some p'
            currentOrder := some (parseORC segment isOntarioFormat)
            orderAttached := true
            currentResult := none, currentOBX := none
            currentNTEContext := .nul }
  | "OBR" =>
      match st.patient with
      | none => st
      | some _ =>
          let base := st.currentOrder.getD (.obj [("labResults", .arr [])])
          let od' := match closeResult st.currentResult st.currentOBX with
            | some r => base.pushToArrKey "labResults" r
            | none => base
          { st with
            currentOrder := some od'
            orderAttached := st.currentOrder.isNone || st.orderAttached
            currentResult := some (parseOBR segment isOntarioFormat)
            currentOBX := none, currentNTEContext := .res }
  | "OBX" =>
      match st.currentResult with
      | none => st
      | some r =>
          let r' := match st.currentOBX with
            | some o => r.pushToArrKey "observations" o
            | none => r
          { st with
            currentResult := some r'
            currentOBX := some (parseOBX segment isOntarioFormat isRTFReport
              isPDFReport includeRTFContent)
            currentNTEContext := .obx }
  | "NTE" =>
      match st.currentNTEContext with
      | .nul => st
      | .pat =>
          { st with patient := st.patient.map (·.pushToArrKey "notes" (parseNTE segment)) }
      | .res =>
          { st with currentResult :=
              st.currentResult.map (·.pushToArrKey "notes" (parseNTE segment)) }
      | .obx =>
          { st with currentOBX :=
              st.currentOBX.map (·.pushToArrKey "notes" (parseNTE segment)) }
  | _ => st

/-- The result object of `parseEMRHL7Message` after the segment walk, with
the single patient wrapped in a `patients` array and the dialect/report
metadata at the top level. -/
def assemble (isOntarioFormat : Val) (isRTFReport isPDFReport : Bool)
    (reportType : Val) (st : AState) : Val :=
  let patient' := st.patient.map fun p =>
    if st.orderAttached then
      match closeOrder st.currentOrder st.currentResult st.currentOBX with
      | some od => p.pushToArrKey "orders" od
      | none => p
    else p
  .obj [
    ("messageHeader", jsOr (st.messageHeader.getD .null) (.obj [])),
    ("patients", .arr patient'.toList),
    ("isOntarioFormat", isOntarioFormat),
    ("isDocumentReport", .bool (isRTFReport || isPDFReport)),
    ("reportType", reportType)]

/-- Embedding of `parseEMRHL7Message` of parseEMRHL7Message.js over the tokenizer
interface (the JS defaults are `shouldRemoveEmptyFields = true`,
`includeRTFContent = false`). -/
def parseEMRHL7Message (input : List Segment)
    (shouldRemoveEmptyFields includeRTFContent : Bool) :
    Except ParseError Val :=
  match tokenize input with
  | .error e => .error e
  | .ok segments =>
      let isOntarioFormat := isOntarioFormatVal segments
      let reportType := reportTypeVal segments
      let isRTFReport := checkIfRTFReport segments
      let isPDFReport := checkIfPDFReport segments reportType
      let result := assemble isOntarioFormat isRTFReport isPDFReport reportType
        (segments.foldl
          (step isOntarioFormat isRTFReport isPDFReport reportType
            includeRTFContent)
          initState)
      .ok (if shouldRemoveEmptyFields then removeEmptyFields result else result)

end EMR

/-! ## Shared helper lemmas -/

theorem lookupKey_cons (k' : String) (v : Val) (rest : List (String × Val))
    (k : String) :
    lookupKey ((k', v) :: rest) k = if k' == k then v else lookupKey rest k := rfl

/-- The last header-type (MSH) segment of a segment list, in source order. -/
def lastMSH : List Segment → Option Segment
  | [] => none
  | s :: rest =>
      match lastMSH rest with
      | some m => some m
      | none => if s.type == "MSH" then some s else none

theorem lastMSH_isSome_of_any (segs : List Segment)
    (h : segs.any (fun s => s.type == "MSH") = true) :
    ∃ m, lastMSH segs = some m := by
  induction segs with
  | nil => simp at h
  | cons s rest ih =>
      rw [List.any_cons] at h
      unfold lastMSH
      cases hm : lastMSH rest with
      | some m => exact ⟨m, rfl⟩
      | none =>
          rcases Bool.or_eq_true_iff.mp h with h1 | h2
          · exact ⟨s, by rw [h1]; rfl⟩
          · rcases ih h2 with ⟨m, hm'⟩
            rw [hm'] at hm
            cases hm

theorem any_msh_of_lastMSH (segs : List Segment) (m : Segment)
    (h : lastMSH segs = some m) :
    segs.any (fun s => s.type == "MSH") = true := by
  induction segs with
  | nil => cases h
  | cons s rest ih =>
      unfold lastMSH at h
      rw [List.any_cons, Bool.or_eq_true_iff]
      cases hm : lastMSH rest with
      | some m' => exact Or.inr (ih (by rw [hm]; rw [hm] at h; exact h))
      | none =>
          rw [hm] at h
          by_cases hs : s.type == "MSH"
          · exact Or.inl hs
          · rw [if_neg hs] at h; cases h

theorem truthy_not_emptyField (v : Val) (h : v.truthy = true) :
    isEmptyField v = false := by
  cases v with
  | null => cases h
  | bool b => rfl
  | str s =>
      unfold Val.truthy at h
      unfold isEmptyField
      simp only [decide_eq_true_eq] at h
      simp only [beq_eq_false_iff_ne, ne_eq]
      exact h
  | arr xs => rfl
  | obj fs => rfl

theorem isEmptyField_jsOr_obj (x : Val) (fs : List (String × Val)) :
    isEmptyField (jsOr x (.obj fs)) = false := by
  unfold jsOr
  by_cases h : x.truthy = true
  · rw [if_pos h]; exact truthy_not_emptyField x h
  · rw [if_neg h]; rfl

theorem asArray_of_not_arr (v : Val) (h : ∀ ys, v ≠ .arr ys) :
    asArray v = [v] := by
  cases v with
  | arr xs => exact absurd rfl (h xs)
  | null => rfl
  | bool b => rfl
  | str s => rfl
  | obj fs => rfl

/-! ## Claim C1 -/

/-- C1: for every input whose segments contain no header-type (MSH) segment,
both parse operations fail with a ParseError and return no (even partial)
result. -/
theorem c1_no_header_parse_fails (input : List Segment) (b r : Bool)
    (h : ∀ s ∈ input, s.type ≠ "MSH") :
    GDML.parseHL7Message input b = .error .noHeaderSegment ∧
    EMR.parseEMRHL7Message input b r = .error .noHeaderSegment := by
  have ht : tokenize input = .error .noHeaderSegment := by
    unfold tokenize
    rw [if_neg]
    rw [List.any_eq_true]
    rintro ⟨s, hs, hmsh⟩
    exact h s hs (by simpa using hmsh)
  constructor
  · unfold GDML.parseHL7Message
    rw [ht]
  · unfold EMR.parseEMRHL7Message
    rw [ht]

/-- Witness for C1 at a concrete headerless message. -/
theorem c1_witness :
    GDML.parseHL7Message [⟨"PID", []⟩] true = .error .noHeaderSegment ∧
    EMR.parseEMRHL7Message [⟨"PID", []⟩] true false = .error .noHeaderSegment :=
  c1_no_header_parse_fails [⟨"PID", []⟩] true false
    (by intro s hs; rw [List.mem_singleton] at hs; subst hs; decide)

/-! ## Claim C9 -/

theorem isEmptyField_gdml_prune (v : Val) :
    isEmptyField (GDML.removeEmptyFields v) = isEmptyField v := by
  cases v <;> rfl

theorem isEmptyField_emr_prune (v : Val) :
    isEmptyField (EMR.removeEmptyFields v) = isEmptyField v := by
  cases v <;> rfl

mutual

theorem gdml_prune_idem (v : Val) :
    GDML.removeEmptyFields (GDML.removeEmptyFields v) = GDML.removeEmptyFields v :=
  match v with
  | .null => rfl
  | .bool _ => rfl
  | .str _ => rfl
  | .arr xs => by
      simp only [GDML.removeEmptyFields]
      rw [gdml_pruneElems_idem xs]
  | .obj fs => by
      simp only [GDML.removeEmptyFields]
      rw [gdml_pruneFields_idem fs]

theorem gdml_pruneElems_idem (xs : List Val) :
    GDML.pruneElems (GDML.pruneElems xs) = GDML.pruneElems xs :=
  match xs with
  | [] => rfl
  | x :: rest => by
      simp only [GDML.pruneElems]
      rw [gdml_prune_idem x, gdml_pruneElems_idem rest]

theorem gdml_pruneFields_idem (fs : List (String × Val)) :
    GDML.pruneFields (GDML.pruneFields fs) = GDML.pruneFields fs :=
  match fs with
  | [] => rfl
  | (k, v) :: rest => by
      by_cases he : isEmptyField v = true
      · simp only [GDML.pruneFields, he, if_true]
        exact gdml_pruneFields_idem rest
      · rw [Bool.not_eq_true] at he
        simp only [GDML.pruneFields, he, Bool.false_eq_true, if_false,
          isEmptyField_gdml_prune]
        rw [gdml_prune_idem v, gdml_pruneFields_idem rest]

end

mutual

theorem emr_prune_idem (v : Val) :
    EMR.removeEmptyFields (EMR.removeEmptyFields v) = EMR.removeEmptyFields v :=
  match v with
  | .null => rfl
  | .bool _ => rfl
  | .str _ => rfl
  | .arr xs => by
      simp only [EMR.removeEmptyFields]
      rw [emr_pruneElems_idem xs]
  | .obj fs => by
      simp only [EMR.removeEmptyFields]
      rw [emr_pruneFields_idem fs]

theorem emr_pruneElems_idem (xs : List Val) :
    EMR.pruneElems (EMR.pruneElems xs) = EMR.pruneElems xs :=
  match xs with
  | [] => rfl
  | x :: rest => by
      simp only [EMR.pruneElems]
      rw [emr_prune_idem x, emr_pruneElems_idem rest]

theorem emr_pruneFields_idem (fs : List (String × Val)) :
    EMR.pruneFields (EMR.pruneFields fs) = EMR.pruneFields fs :=
  match fs with
  | [] => rfl
  | (k, v) :: rest => by
      by_cases he : isEmptyField v = true
      · simp only [EMR.pruneFields, he, if_true]
        exact emr_pruneFields_idem rest
      · rw [Bool.not_eq_true] at he
        simp only [EMR.pruneFields, he, Bool.false_eq_true, if_false,
          isEmptyField_emr_prune]
        rw [emr_prune_idem v, emr_pruneFields_idem rest]

end

/-- C9: both post-processing pruning operations are idempotent: applying
`removeEmptyFields` twice to any value yields the same result as applying it
once. -/
theorem c9_prune_idempotent (v : Val) :
    GDML.removeEmptyFields (GDML.removeEmptyFields v) = GDML.removeEmptyFields v ∧
    EMR.removeEmptyFields (EMR.removeEmptyFields v) = EMR.removeEmptyFields v :=
  ⟨gdml_prune_idem v, emr_prune_idem v⟩

/-! ## Claim C3 -/

theorem gdml_pruneElems_length (xs : List Val) :
    (GDML.pruneElems xs).length = xs.length := by
  induction xs with
  | nil => rfl
  | cons x rest ih => simp only [GDML.pruneElems, List.length_cons, ih]

theorem emr_pruneElems_length (xs : List Val) :
    (EMR.pruneElems xs).length = xs.length := by
  induction xs with
  | nil => rfl
  | cons x rest ih => simp only [EMR.pruneElems, List.length_cons, ih]

theorem gdml_pruneFields_lookup_of_not_mem (fs : List (String × Val))
    (k : String) (h : k ∉ fs.map Prod.fst) :
    lookupKey (GDML.pruneFields fs) k = .null := by
  induction fs with
  | nil => rfl
  | cons kv rest ih =>
      obtain ⟨k', v⟩ := kv
      simp only [List.map_cons, List.mem_cons, not_or] at h
      obtain ⟨hne, hrest⟩ := h
      unfold GDML.pruneFields
      by_cases he : isEmptyField v = true
      · rw [if_pos he]; exact ih hrest
      · rw [Bool.not_eq_true] at he
        rw [if_neg (by rw [he]; exact Bool.false_ne_true)]
        unfold lookupKey
        rw [if_neg (by simpa using fun hk => hne hk.symm)]
        exact ih hrest

theorem emr_pruneFields_lookup_of_not_mem (fs : List (String × Val))
    (k : String) (h : k ∉ fs.map Prod.fst) :
    lookupKey (EMR.pruneFields fs) k = .null := by
  induction fs with
  | nil => rfl
  | cons kv rest ih =>
      obtain ⟨k', v⟩ := kv
      simp only [List.map_cons, List.mem_cons, not_or] at h
      obtain ⟨hne, hrest⟩ := h
      unfold EMR.pruneFields
      by_cases he : isEmptyField v = true
      · rw [if_pos he]; exact ih hrest
      · rw [Bool.not_eq_true] at he
        rw [if_neg (by rw [he]; exact Bool.false_ne_true)]
        unfold lookupKey
        rw [if_neg (by simpa using fun hk => hne hk.symm)]
        exact ih hrest

theorem gdml_pruneFields_cons (k' : String) (v : Val)
    (rest : List (String × Val)) :
    GDML.pruneFields ((k', v) :: rest)
      = (if isEmptyField v then GDML.pruneFields rest
         else (k', GDML.removeEmptyFields v) :: GDML.pruneFields rest) := rfl

theorem gdml_prune_obj_lookup (fs : List (String × Val)) (k : String)
    (hnd : (fs.map Prod.fst).Nodup) :
    lookupKey (GDML.pruneFields fs) k
      = (if isEmptyField (lookupKey fs k) then Val.null
         else GDML.removeEmptyFields (lookupKey fs k)) := by
  induction fs with
  | nil => simp [lookupKey, GDML.pruneFields, isEmptyField, GDML.removeEmptyFields]
  | cons kv rest ih =>
      obtain ⟨k', v⟩ := kv
      simp only [List.map_cons, List.nodup_cons] at hnd
      obtain ⟨hnm, hnd'⟩ := hnd
      rw [gdml_pruneFields_cons, lookupKey_cons]
      by_cases he : isEmptyField v = true
      · rw [if_pos he]
        by_cases hk : (k' == k) = true
        · have hk' : k' = k := by simpa using hk
          subst hk'
          rw [if_pos hk, if_pos he]
          exact gdml_pruneFields_lookup_of_not_mem rest k' hnm
        · rw [if_neg hk]
          exact ih hnd'
      · rw [if_neg he]
        rw [lookupKey_cons]
        by_cases hk : (k' == k) = true
        · have hk' : k' = k := by simpa using hk
          subst hk'
          rw [if_pos hk, if_pos hk, if_neg he]
        · rw [if_neg hk, if_neg hk]
          exact ih hnd'

theorem emr_pruneFields_cons (k' : String) (v : Val)
    (rest : List (String × Val)) :
    EMR.pruneFields ((k', v) :: rest)
      = (if isEmptyField v then EMR.pruneFields rest
         else (k', EMR.removeEmptyFields v) :: EMR.pruneFields rest) := rfl

theorem emr_prune_obj_lookup (fs : List (String × Val)) (k : String)
    (hnd : (fs.map Prod.fst).Nodup) :
    lookupKey (EMR.pruneFields fs) k
      = (if isEmptyField (lookupKey fs k) then Val.null
         else EMR.removeEmptyFields (lookupKey fs k)) := by
  induction fs with
  | nil => simp [lookupKey, EMR.pruneFields, isEmptyField, EMR.removeEmptyFields]
  | cons kv rest ih =>
      obtain ⟨k', v⟩ := kv
      simp only [List.map_cons, List.nodup_cons] at hnd
      obtain ⟨hnm, hnd'⟩ := hnd
      rw [emr_pruneFields_cons, lookupKey_cons]
      by_cases he : isEmptyField v = true
      · rw [if_pos he]
        by_cases hk : (k' == k) = true
        · have hk' : k' = k := by simpa using hk
          subst hk'
          rw [if_pos hk, if_pos he]
          exact emr_pruneFields_lookup_of_not_mem rest k' hnm
        · rw [if_neg hk]
          exact ih hnd'
      · rw [if_neg he]
        rw [lookupKey_cons]
        by_cases hk : (k' == k) = true
        · have hk' : k' = k := by simpa using hk
          subst hk'
          rw [if_pos hk, if_pos hk, if_neg he]
        · rw [if_neg hk, if_neg hk]
          exact ih hnd'

/-- C3 counterexample: in both parsers' `removeEmptyFields`, an array element
that is itself empty after pruning (here the empty string, one of the
"empty" values the routine deletes from objects) is NOT removed from the
array, contradicting the claim that empty array elements are removed; the
array keeps its single element. -/
theorem c3_counterexample :
    GDML.removeEmptyFields (.obj [("a", .arr [.str ""])])
      = .obj [("a", .arr [.str ""])] ∧
    EMR.removeEmptyFields (.obj [("a", .arr [.str ""])])
      = .obj [("a", .arr [.str ""])] ∧
    (Val.arr [.str ""]).arrLen = 1 :=
  ⟨rfl, rfl, rfl⟩

/-- C3 (amended): `removeEmptyFields` removes every object key whose value is
`null`, `undefined` or the empty string (a lookup of such a key in the pruned
object yields nothing, while a key with a non-empty value is kept, bound to
its recursively pruned value), but array elements are only recursed into and
are never removed — pruning an array preserves its length exactly. -/
theorem c3_amended_pruning (xs : List Val) (fs : List (String × Val))
    (k : String) (hnd : (fs.map Prod.fst).Nodup) :
    ((GDML.removeEmptyFields (.arr xs)).arrLen = xs.length ∧
      (GDML.removeEmptyFields (.obj fs)).get k
        = (if isEmptyField (lookupKey fs k) then Val.null
           else GDML.removeEmptyFields (lookupKey fs k))) ∧
    ((EMR.removeEmptyFields (.arr xs)).arrLen = xs.length ∧
      (EMR.removeEmptyFields (.obj fs)).get k
        = (if isEmptyField (lookupKey fs k) then Val.null
           else EMR.removeEmptyFields (lookupKey fs k))) := by
  refine ⟨⟨?_, ?_⟩, ?_, ?_⟩
  · simp only [GDML.removeEmptyFields, Val.arrLen]
    exact gdml_pruneElems_length xs
  · simp only [GDML.removeEmptyFields, Val.get]
    exact gdml_prune_obj_lookup fs k hnd
  · simp only [EMR.removeEmptyFields, Val.arrLen]
    exact emr_pruneElems_length xs
  · simp only [EMR.removeEmptyFields, Val.get]
    exact emr_prune_obj_lookup fs k hnd

/-- Witness for C3 (amended) at a concrete object and array. -/
theorem c3_witness :
    ((GDML.removeEmptyFields (.arr [.str "", .null])).arrLen = 2 ∧
      (GDML.removeEmptyFields
        (.obj [("a", .null), ("b", .str "x")])).get "b"
        = (if isEmptyField (lookupKey [("a", Val.null), ("b", Val.str "x")] "b")
           then Val.null
           else GDML.removeEmptyFields
             (lookupKey [("a", Val.null), ("b", Val.str "x")] "b"))) ∧
    ((EMR.removeEmptyFields (.arr [.str "", .null])).arrLen = 2 ∧
      (EMR.removeEmptyFields
        (.obj [("a", .null), ("b", .str "x")])).get "b"
        = (if isEmptyField (lookupKey [("a", Val.null), ("b", Val.str "x")] "b")
           then Val.null
           else EMR.removeEmptyFields
             (lookupKey [("a", Val.null), ("b", Val.str "x")] "b"))) :=
  c3_amended_pruning [.str "", .null] [("a", .null), ("b", .str "x")] "b"
    (by decide)

/-! ## Claim C2 -/

theorem lastMSH_cons (s : Segment) (rest : List Segment) :
    lastMSH (s :: rest)
      = (match lastMSH rest with
         | some m => some m
         | none => if s.type == "MSH" then some s else none) := rfl

theorem gdml_step_header_msh (st : GDML.AState) (s : Segment)
    (h : s.type = "MSH") :
    (GDML.step st s).messageHeader = some (GDML.parseMSH s) := by
  unfold GDML.step
  rw [h]
  rfl

theorem gdml_step_header_ne (st : GDML.AState) (s : Segment)
    (h : ¬ s.type = "MSH") :
    (GDML.step st s).messageHeader = st.messageHeader := by
  unfold GDML.step
  split
  · next heq => exact absurd heq h
  all_goals first | rfl | (split <;> rfl)

theorem gdml_foldl_header (segs : List Segment) (st : GDML.AState) :
    (segs.foldl GDML.step st).messageHeader
      = (match lastMSH segs with
         | some m => some (GDML.parseMSH m)
         | none => st.messageHeader) := by
  induction segs generalizing st with
  | nil => rfl
  | cons s rest ih =>
      rw [List.foldl_cons, ih, lastMSH_cons]
      cases hm : lastMSH rest with
      | some m => rfl
      | none =>
          by_cases h : (s.type == "MSH") = true
          · rw [if_pos h]
            exact gdml_step_header_msh st s (by simpa using h)
          · rw [if_neg h]
            exact gdml_step_header_ne st s (by simpa using h)

theorem emr_step_header_msh (ont : Val) (rtf pdf : Bool) (rt : Val)
    (inc : Bool) (st : EMR.AState) (s : Segment) (h : s.type = "MSH") :
    (EMR.step ont rtf pdf rt inc st s).messageHeader
      = some (EMR.parseMSH s ont) := by
  unfold EMR.step
  rw [h]
  rfl

theorem emr_step_header_ne (ont : Val) (rtf pdf : Bool) (rt : Val)
    (inc : Bool) (st : EMR.AState) (s : Segment) (h : ¬ s.type = "MSH") :
    (EMR.step ont rtf pdf rt inc st s).messageHeader = st.messageHeader := by
  unfold EMR.step
  split
  · next heq => exact absurd heq h
  all_goals first | rfl | (split <;> rfl)

theorem emr_foldl_header (ont : Val) (rtf pdf : Bool) (rt : Val)
    (inc : Bool) (segs : List Segment) (st : EMR.AState) :
    (segs.foldl (EMR.step ont rtf pdf rt inc) st).messageHeader
      = (match lastMSH segs with
         | some m => some (EMR.parseMSH m ont)
         | none => st.messageHeader) := by
  induction segs generalizing st with
  | nil => rfl
  | cons s rest ih =>
      rw [List.foldl_cons, ih, lastMSH_cons]
      cases hm : lastMSH rest with
      | some m => rfl
      | none =>
          by_cases h : (s.type == "MSH") = true
          · rw [if_pos h]
            exact emr_step_header_msh ont rtf pdf rt inc st s
              (by simpa using h)
          · rw [if_neg h]
            exact emr_step_header_ne ont rtf pdf rt inc st s
              (by simpa using h)

/-- C2 counterexample: with two MSH segments (control ids "A" then "B"), the
parse output's `messageHeader` carries the control id of the SECOND segment,
while parsing the first MSH segment yields control id "A" — so the resulting
header is not the one parsed from the first MSH segment in source order. -/
theorem c2_counterexample :
    ((GDML.parseHL7Message
        [⟨"MSH", [("MSH.10", .str "A")]⟩, ⟨"MSH", [("MSH.10", .str "B")]⟩]
        true).toOption.map
      (fun v => (v.get "messageHeader").get "messageControlId")
      = some (.str "B")) ∧
    ((GDML.parseMSH ⟨"MSH", [("MSH.10", .str "A")]⟩).get "messageControlId"
      = .str "A") ∧
    ((EMR.parseEMRHL7Message
        [⟨"MSH", [("MSH.10", .str "A")]⟩, ⟨"MSH", [("MSH.10", .str "B")]⟩]
        true false).toOption.map
      (fun v => (v.get "messageHeader").get "messageControlId")
      = some (.str "B")) ∧
    Val.str "B" ≠ Val.str "A" := by
  refine ⟨rfl, rfl, rfl, ?_⟩
  intro h
  injection h with h
  exact absurd h (by decide)

theorem jsOr_obj_left (fs : List (String × Val)) (w : Val) :
    jsOr (.obj fs) w = .obj fs := rfl

theorem gdml_parseMSH_is_obj (m : Segment) :
    ∃ fs, GDML.parseMSH m = .obj fs := ⟨_, rfl⟩

theorem emr_parseMSH_is_obj (m : Segment) (ont : Val) :
    ∃ fs, EMR.parseMSH m ont = .obj fs := ⟨_, rfl⟩

theorem gdml_get_prune_head (k : String) (v : Val)
    (rest : List (String × Val)) (hv : isEmptyField v = false) :
    (GDML.removeEmptyFields (.obj ((k, v) :: rest))).get k
      = GDML.removeEmptyFields v := by
  show (Val.obj (GDML.pruneFields ((k, v) :: rest))).get k = _
  rw [gdml_pruneFields_cons, if_neg (by rw [hv]; exact Bool.false_ne_true)]
  show lookupKey ((k, GDML.removeEmptyFields v) :: GDML.pruneFields rest) k = _
  rw [lookupKey_cons, if_pos (by simp)]

theorem emr_get_prune_head (k : String) (v : Val)
    (rest : List (String × Val)) (hv : isEmptyField v = false) :
    (EMR.removeEmptyFields (.obj ((k, v) :: rest))).get k
      = EMR.removeEmptyFields v := by
  show (Val.obj (EMR.pruneFields ((k, v) :: rest))).get k = _
  rw [emr_pruneFields_cons, if_neg (by rw [hv]; exact Bool.false_ne_true)]
  show lookupKey ((k, EMR.removeEmptyFields v) :: EMR.pruneFields rest) k = _
  rw [lookupKey_cons, if_pos (by simp)]

/-- C2 (amended): exactly one header is honored per message, but when more
than one header-type (MSH) segment occurs it is the LAST one in source order
that wins: the output's `messageHeader` is the (possibly pruned) parse of the
last MSH segment, for both parsers (in the EMR parser the dialect flag fed to
the header mapper is still read from the first MSH segment, via
`isOntarioFormatVal`). -/
theorem c2_last_header_wins (segs : List Segment) (m : Segment) (b r : Bool)
    (hm : lastMSH segs = some m) :
    (∃ out, GDML.parseHL7Message segs b = .ok out ∧
      out.get "messageHeader"
        = (if b then GDML.removeEmptyFields (GDML.parseMSH m)
           else GDML.parseMSH m)) ∧
    (∃ out, EMR.parseEMRHL7Message segs b r = .ok out ∧
      out.get "messageHeader"
        = (if b then
            EMR.removeEmptyFields (EMR.parseMSH m (EMR.isOntarioFormatVal segs))
           else EMR.parseMSH m (EMR.isOntarioFormatVal segs))) := by
  have hany := any_msh_of_lastMSH segs m hm
  have ht : tokenize segs = .ok segs := by
    unfold tokenize
    rw [if_pos hany]
  constructor
  · refine ⟨_, by unfold GDML.parseHL7Message; rw [ht], ?_⟩
    have hh : (segs.foldl GDML.step GDML.initState).messageHeader
        = some (GDML.parseMSH m) := by
      rw [gdml_foldl_header, hm]
    obtain ⟨hfs, hobj⟩ := gdml_parseMSH_is_obj m
    unfold GDML.assemble
    rw [hh, Option.getD_some, hobj, jsOr_obj_left]
    cases b with
    | false =>
        rw [if_neg (by simp), if_neg (by simp)]
        rfl
    | true =>
        rw [if_pos rfl, if_pos rfl]
        exact gdml_get_prune_head "messageHeader" (.obj hfs) _ rfl
  · refine ⟨_, by unfold EMR.parseEMRHL7Message; rw [ht], ?_⟩
    have hh : (segs.foldl (EMR.step (EMR.isOntarioFormatVal segs)
        (EMR.checkIfRTFReport segs)
        (EMR.checkIfPDFReport segs (EMR.reportTypeVal segs))
        (EMR.reportTypeVal segs) r) EMR.initState).messageHeader
        = some (EMR.parseMSH m (EMR.isOntarioFormatVal segs)) := by
      rw [emr_foldl_header, hm]
    obtain ⟨hfs, hobj⟩ := emr_parseMSH_is_obj m (EMR.isOntarioFormatVal segs)
    unfold EMR.assemble
    rw [hh, Option.getD_some, hobj, jsOr_obj_left]
    cases b with
    | false =>
        rw [if_neg (by simp), if_neg (by simp)]
        rfl
    | true =>
        rw [if_pos rfl, if_pos rfl]
        exact emr_get_prune_head "messageHeader" (.obj hfs) _ rfl

/-- Witness for C2 (amended) at a concrete two-header message. -/
theorem c2_witness :
    (∃ out, GDML.parseHL7Message
        [⟨"MSH", [("MSH.10", .str "A")]⟩, ⟨"MSH", [("MSH.10", .str "B")]⟩]
        true = .ok out ∧
      out.get "messageHeader"
        = (if true then
            GDML.removeEmptyFields (GDML.parseMSH ⟨"MSH", [("MSH.10", .str "B")]⟩)
           else GDML.parseMSH ⟨"MSH", [("MSH.10", .str "B")]⟩)) ∧
    (∃ out, EMR.parseEMRHL7Message
        [⟨"MSH", [("MSH.10", .str "A")]⟩, ⟨"MSH", [("MSH.10", .str "B")]⟩]
        true false = .ok out ∧
      out.get "messageHeader"
        = (if true then
            EMR.removeEmptyFields (EMR.parseMSH ⟨"MSH", [("MSH.10", .str "B")]⟩
              (EMR.isOntarioFormatVal
                [⟨"MSH", [("MSH.10", .str "A")]⟩, ⟨"MSH", [("MSH.10", .str "B")]⟩]))
           else EMR.parseMSH ⟨"MSH", [("MSH.10", .str "B")]⟩
              (EMR.isOntarioFormatVal
                [⟨"MSH", [("MSH.10", .str "A")]⟩, ⟨"MSH", [("MSH.10", .str "B")]⟩]))) :=
  c2_last_header_wins
    [⟨"MSH", [("MSH.10", .str "A")]⟩, ⟨"MSH", [("MSH.10", .str "B")]⟩]
    ⟨"MSH", [("MSH.10", .str "B")]⟩ true false rfl

/-! ## Claim C7 -/

theorem gdml_step_obx_dropped (st : GDML.AState) (x : Segment)
    (hx : x.type = "OBX") (hr : st.currentLabResult = none) :
    GDML.step st x = st := by
  unfold GDML.step
  rw [hx]
  show (match st.currentLabResult with
    | none => st
    | some r => _) = st
  rw [hr]

theorem emr_step_obx_dropped (ont : Val) (rtf pdf : Bool) (rt : Val)
    (inc : Bool) (st : EMR.AState) (x : Segment)
    (hx : x.type = "OBX") (hr : st.currentResult = none) :
    EMR.step ont rtf pdf rt inc st x = st := by
  unfold EMR.step
  rw [hx]
  show (match st.currentResult with
    | none => st
    | some r => _) = st
  rw [hr]

theorem any_msh_skip_obx (pre post : List Segment) (x : Segment)
    (hx : x.type = "OBX") :
    ((pre ++ x :: post).any fun s => s.type == "MSH")
      = ((pre ++ post).any fun s => s.type == "MSH") := by
  have hxm : (x.type == "MSH") = false := by rw [hx]; rfl
  rw [List.any_append, List.any_append, List.any_cons, hxm, Bool.false_or]

/-- C7: an observation (OBX) segment that arrives while no lab result is
open — in particular before any service-request (OBR) segment — is silently
dropped: for the GDML parser the whole parse output equals the parse of the
same message with the orphan OBX removed (so it appears nowhere in the output
and the rest is assembled normally, and parsing still succeeds); for the EMR
parser the segment walk satisfies the same equality for every choice of the
dialect/census flags (which `parseEMRHL7Message` computes from the segment
census before the walk), and the orphan step itself is the identity on any
walk state with no open result. -/
theorem c7_orphan_obx_dropped (pre post : List Segment) (x : Segment)
    (b : Bool) (hx : x.type = "OBX") :
    ((pre.foldl GDML.step GDML.initState).currentLabResult = none →
      GDML.parseHL7Message (pre ++ x :: post) b
        = GDML.parseHL7Message (pre ++ post) b) ∧
    (∀ ont rtf pdf rt inc,
      (pre.foldl (EMR.step ont rtf pdf rt inc) EMR.initState).currentResult
          = none →
      (pre ++ x :: post).foldl (EMR.step ont rtf pdf rt inc) EMR.initState
        = (pre ++ post).foldl (EMR.step ont rtf pdf rt inc) EMR.initState) ∧
    (∀ ont rtf pdf rt inc (st : EMR.AState), st.currentResult = none →
      EMR.step ont rtf pdf rt inc st x = st) := by
  refine ⟨?_, ?_, ?_⟩
  · intro hr
    have hfold : (pre ++ x :: post).foldl GDML.step GDML.initState
        = (pre ++ post).foldl GDML.step GDML.initState := by
      rw [List.foldl_append, List.foldl_append, List.foldl_cons,
        gdml_step_obx_dropped _ x hx hr]
    unfold GDML.parseHL7Message tokenize
    rw [any_msh_skip_obx pre post x hx]
    by_cases h : ((pre ++ post).any fun s => s.type == "MSH") = true
    · rw [if_pos h, if_pos h]
      show Except.ok _ = Except.ok _
      rw [hfold]
    · rw [if_neg h, if_neg h]
  · intro ont rtf pdf rt inc hr
    rw [List.foldl_append, List.foldl_append, List.foldl_cons,
      emr_step_obx_dropped ont rtf pdf rt inc _ x hx hr]
  · intro ont rtf pdf rt inc st hr
    exact emr_step_obx_dropped ont rtf pdf rt inc st x hx hr

/-- Witness for C7 at a concrete message whose OBX precedes its OBR. -/
theorem c7_witness :
    (GDML.parseHL7Message
        [⟨"MSH", []⟩, ⟨"PID", []⟩, ⟨"OBX", [("OBX.2", .str "ST")]⟩,
          ⟨"OBR", []⟩] true
      = GDML.parseHL7Message [⟨"MSH", []⟩, ⟨"PID", []⟩, ⟨"OBR", []⟩] true) ∧
    ([⟨"MSH", []⟩, ⟨"PID", []⟩, ⟨"OBX", [("OBX.2", .str "ST")]⟩,
        ⟨"OBR", []⟩].foldl (EMR.step .null false false .null false)
        EMR.initState
      = [⟨"MSH", []⟩, ⟨"PID", []⟩, ⟨"OBR", []⟩].foldl
          (EMR.step .null false false .null false) EMR.initState) := by
  have h := c7_orphan_obx_dropped [⟨"MSH", []⟩, ⟨"PID", []⟩]
    [⟨"OBR", []⟩] ⟨"OBX", [("OBX.2", .str "ST")]⟩ true rfl
  exact ⟨h.1 rfl, h.2.1 .null false false .null false rfl⟩

/-! ## Claim C8 -/

theorem gdml_step_obx_open (st : GDML.AState) (o : Segment) (r : Val)
    (ho : o.type = "OBX") (hr : st.currentLabResult = some r) :
    GDML.step st o = { st with
      currentLabResult := some (match st.currentOBX with
        | some ob => r.pushToArrKey "observations" ob
        | none => r)
      currentOBX := some (GDML.parseOBX o)
      currentNTEContext := .obx } := by
  unfold GDML.step
  rw [ho]
  show (match st.currentLabResult with
    | none => st
    | some r => _) = _
  rw [hr]

theorem gdml_step_nte_obx (st : GDML.AState) (n : Segment)
    (hn : n.type = "NTE") (hc : st.currentNTEContext = .obx) :
    GDML.step st n = { st with currentOBX := st.currentOBX.map (·.pushToArrKey "notes" (GDML.parseNTE n)) } := by
  unfold GDML.step
  rw [hn]
  show (match st.currentNTEContext with
    | NCtx.nul => st
    | NCtx.pat => _
    | NCtx.res => _
    | NCtx.obx => _) = _
  rw [hc]

theorem gdml_step_nte_nul (st : GDML.AState) (n : Segment)
    (hn : n.type = "NTE") (hc : st.currentNTEContext = .nul) :
    GDML.step st n = st := by
  unfold GDML.step
  rw [hn]
  show (match st.currentNTEContext with
    | NCtx.nul => st
    | NCtx.pat => _
    | NCtx.res => _
    | NCtx.obx => _) = _
  rw [hc]

theorem emr_step_obx_open (ont : Val) (rtf pdf : Bool) (rt : Val) (inc : Bool)
    (st : EMR.AState) (o : Segment) (r : Val)
    (ho : o.type = "OBX") (hr : st.currentResult = some r) :
    EMR.step ont rtf pdf rt inc st o = { st with
      currentResult := some (match st.currentOBX with
        | some ob => r.pushToArrKey "observations" ob
        | none => r)
      currentOBX := some (EMR.parseOBX o ont rtf pdf inc)
      currentNTEContext := .obx } := by
  unfold EMR.step
  rw [ho]
  show (match st.currentResult with
    | none => st
    | some r => _) = _
  rw [hr]

theorem emr_step_nte_obx (ont : Val) (rtf pdf : Bool) (rt : Val) (inc : Bool)
    (st : EMR.AState) (n : Segment)
    (hn : n.type = "NTE") (hc : st.currentNTEContext = .obx) :
    EMR.step ont rtf pdf rt inc st n = { st with currentOBX := st.currentOBX.map (·.pushToArrKey "notes" (EMR.parseNTE n)) } := by
  unfold EMR.step
  rw [hn]
  show (match st.currentNTEContext with
    | NCtx.nul => st
    | NCtx.pat => _
    | NCtx.res => _
    | NCtx.obx => _) = _
  rw [hc]

theorem emr_step_nte_nul (ont : Val) (rtf pdf : Bool) (rt : Val) (inc : Bool)
    (st : EMR.AState) (n : Segment)
    (hn : n.type = "NTE") (hc : st.currentNTEContext = .nul) :
    EMR.step ont rtf pdf rt inc st n = st := by
  unfold EMR.step
  rw [hn]
  show (match st.currentNTEContext with
    | NCtx.nul => st
    | NCtx.pat => _
    | NCtx.res => _
    | NCtx.obx => _) = _
  rw [hc]

theorem gdml_parseOBX_note (o n : Segment) :
    ((GDML.parseOBX o).pushToArrKey "notes" (GDML.parseNTE n)).get "notes"
      = .arr [GDML.parseNTE n] := rfl

theorem emr_parseOBX_note (o n : Segment) (ont : Val) (rtf pdf inc : Bool) :
    ((EMR.parseOBX o ont rtf pdf inc).pushToArrKey "notes"
        (EMR.parseNTE n)).get "notes"
      = .arr [EMR.parseNTE n] := by
  unfold EMR.parseOBX
  by_cases h : ont.truthy = true
  · simp only [h, if_true]
    rfl
  · simp only [h, Bool.false_eq_true, if_false]
    rfl

theorem EMR.step_pid (ont : Val) (rtf pdf : Bool) (rt : Val) (inc : Bool)
    (st : EMR.AState) (s : Segment) (hs : s.type = "PID") :
    EMR.step ont rtf pdf rt inc st s
      = { st with
          patient := some (EMR.mkPatient s ont rtf pdf rt)
          orderAttached := false
          currentNTEContext := .pat } := by
  unfold EMR.step
  rw [hs]
  rfl

theorem gdml_step_nte_pat (st : GDML.AState) (n : Segment)
    (hn : n.type = "NTE") (hc : st.currentNTEContext = .pat) :
    GDML.step st n = { st with currentPatient := st.currentPatient.map (·.pushToArrKey "notes" (GDML.parseNTE n)) } := by
  unfold GDML.step
  rw [hn]
  show (match st.currentNTEContext with
    | NCtx.nul => st
    | NCtx.pat => _
    | NCtx.res => _
    | NCtx.obx => _) = _
  rw [hc]

theorem gdml_step_nte_res (st : GDML.AState) (n : Segment)
    (hn : n.type = "NTE") (hc : st.currentNTEContext = .res) :
    GDML.step st n = { st with currentLabResult := st.currentLabResult.map (·.pushToArrKey "notes" (GDML.parseNTE n)) } := by
  unfold GDML.step
  rw [hn]
  show (match st.currentNTEContext with
    | NCtx.nul => st
    | NCtx.pat => _
    | NCtx.res => _
    | NCtx.obx => _) = _
  rw [hc]

theorem emr_step_nte_pat (ont : Val) (rtf pdf : Bool) (rt : Val) (inc : Bool)
    (st : EMR.AState) (n : Segment)
    (hn : n.type = "NTE") (hc : st.currentNTEContext = .pat) :
    EMR.step ont rtf pdf rt inc st n = { st with patient := st.patient.map (·.pushToArrKey "notes" (EMR.parseNTE n)) } := by
  unfold EMR.step
  rw [hn]
  show (match st.currentNTEContext with
    | NCtx.nul => st
    | NCtx.pat => _
    | NCtx.res => _
    | NCtx.obx => _) = _
  rw [hc]

theorem emr_step_nte_res (ont : Val) (rtf pdf : Bool) (rt : Val) (inc : Bool)
    (st : EMR.AState) (n : Segment)
    (hn : n.type = "NTE") (hc : st.currentNTEContext = .res) :
    EMR.step ont rtf pdf rt inc st n = { st with currentResult := st.currentResult.map (·.pushToArrKey "notes" (EMR.parseNTE n)) } := by
  unfold EMR.step
  rw [hn]
  show (match st.currentNTEContext with
    | NCtx.nul => st
    | NCtx.pat => _
    | NCtx.res => _
    | NCtx.obx => _) = _
  rw [hc]

theorem gdml_step_pid (st : GDML.AState) (p : Segment) (hp : p.type = "PID") :
    GDML.step st p = { messageHeader := st.messageHeader
                       donePatients := st.donePatients
                         ++ (closePatient st.currentPatient st.currentOrder
                           st.currentLabResult st.currentOBX).toList
                       currentPatient := some (GDML.parsePID p)
                       currentOrder := none
                       currentLabResult := none
                       currentOBX := none
                       currentNTEContext := .pat } := by
  unfold GDML.step
  rw [hp]
  rfl

theorem gdml_step_obr (st : GDML.AState) (b : Segment) (q : Val)
    (hb : b.type = "OBR") (hq : st.currentPatient = some q) :
    GDML.step st b = { st with
      currentOrder := some (match closeResult st.currentLabResult
          st.currentOBX with
        | some r => (st.currentOrder.getD
            (.obj [("labResults", .arr [])])).pushToArrKey "labResults" r
        | none => st.currentOrder.getD (.obj [("labResults", .arr [])]))
      currentLabResult := some (GDML.parseOBR b)
      currentOBX := none
      currentNTEContext := .res } := by
  unfold GDML.step
  rw [hb]
  show (match st.currentPatient with
    | none => st
    | some _ => _) = _
  rw [hq]

theorem emr_step_obr (ont : Val) (rtf pdf : Bool) (rt : Val) (inc : Bool)
    (st : EMR.AState) (b : Segment) (q : Val)
    (hb : b.type = "OBR") (hq : st.patient = some q) :
    EMR.step ont rtf pdf rt inc st b = { st with
      currentOrder := some (match closeResult st.currentResult
          st.currentOBX with
        | some r => (st.currentOrder.getD
            (.obj [("labResults", .arr [])])).pushToArrKey "labResults" r
        | none => st.currentOrder.getD (.obj [("labResults", .arr [])]))
      orderAttached := st.currentOrder.isNone || st.orderAttached
      currentResult := some (EMR.parseOBR b ont)
      currentOBX := none
      currentNTEContext := .res } := by
  unfold EMR.step
  rw [hb]
  show (match st.patient with
    | none => st
    | some _ => _) = _
  rw [hq]

theorem gdml_parsePID_note (p n : Segment) :
    ((GDML.parsePID p).pushToArrKey "notes" (GDML.parseNTE n)).get "notes"
      = .arr [GDML.parseNTE n] := rfl

theorem gdml_parseOBR_note (b n : Segment) :
    ((GDML.parseOBR b).pushToArrKey "notes" (GDML.parseNTE n)).get "notes"
      = .arr [GDML.parseNTE n] := rfl

theorem emr_mkPatient_note (p n : Segment) (ont : Val) (rtf pdf : Bool)
    (rt : Val) :
    ((EMR.mkPatient p ont rtf pdf rt).pushToArrKey "notes"
        (EMR.parseNTE n)).get "notes"
      = .arr [EMR.parseNTE n] := by
  unfold EMR.mkPatient EMR.parsePID
  by_cases h : ont.truthy = true
  · rw [if_pos h]
    by_cases hd : (rtf || pdf) = true
    · rw [if_pos hd]
      rfl
    · rw [if_neg hd]
      rfl
  · rw [if_neg h]
    by_cases hd : (rtf || pdf) = true
    · rw [if_pos hd]
      rfl
    · rw [if_neg hd]
      rfl

theorem emr_parseOBR_note (b n : Segment) (ont : Val) :
    ((EMR.parseOBR b ont).pushToArrKey "notes" (EMR.parseNTE n)).get "notes"
      = .arr [EMR.parseNTE n] := by
  unfold EMR.parseOBR
  by_cases h : ont.truthy = true
  · rw [if_pos h]
    rfl
  · rw [if_neg h]
    rfl

/-- C8: in both parsers a note (NTE) segment attaches to whichever context
most recently opened a notes list, and never creates a new parent:
a note immediately after an observation (OBX) read while a lab result was
open lands in THAT observation's `notes` (which then holds exactly that one
note, a fresh observation starting with empty notes), leaving the enclosing
patient and the enclosing result's own `notes` untouched; a note immediately
after a patient (PID) segment lands in that fresh patient's `notes` while the
result/observation slots are not touched; a note immediately after a
service-request (OBR) segment read with a patient open lands in that fresh
result's `notes` while the patient is untouched and no observation is open;
and a note that arrives while no notes list is open is dropped outright,
leaving the whole walk state unchanged. -/
theorem c8_note_attachment (o p b n : Segment) (ho : o.type = "OBX")
    (hp : p.type = "PID") (hb : b.type = "OBR") (hn : n.type = "NTE") :
    (∀ st : GDML.AState, st.currentLabResult.isSome = true →
      (GDML.step (GDML.step st o) n).currentOBX.map (fun v => v.get "notes")
          = some (.arr [GDML.parseNTE n]) ∧
        (GDML.step (GDML.step st o) n).currentPatient = st.currentPatient ∧
        (GDML.step (GDML.step st o) n).currentLabResult.map
            (fun v => v.get "notes")
          = (GDML.step st o).currentLabResult.map (fun v => v.get "notes")) ∧
    (∀ st : GDML.AState,
      (GDML.step (GDML.step st p) n).currentPatient.map
          (fun v => v.get "notes")
          = some (.arr [GDML.parseNTE n]) ∧
        (GDML.step (GDML.step st p) n).currentLabResult = none ∧
        (GDML.step (GDML.step st p) n).currentOBX = none) ∧
    (∀ (st : GDML.AState) (q : Val), st.currentPatient = some q →
      (GDML.step (GDML.step st b) n).currentLabResult.map
          (fun v => v.get "notes")
          = some (.arr [GDML.parseNTE n]) ∧
        (GDML.step (GDML.step st b) n).currentPatient = st.currentPatient ∧
        (GDML.step (GDML.step st b) n).currentOBX = none) ∧
    (∀ st : GDML.AState, st.currentNTEContext = .nul →
      GDML.step st n = st) ∧
    (∀ ont rtf pdf rt inc (st : EMR.AState), st.currentResult.isSome = true →
      (EMR.step ont rtf pdf rt inc (EMR.step ont rtf pdf rt inc st o)
            n).currentOBX.map (fun v => v.get "notes")
          = some (.arr [EMR.parseNTE n]) ∧
        (EMR.step ont rtf pdf rt inc (EMR.step ont rtf pdf rt inc st o)
            n).patient = st.patient ∧
        (EMR.step ont rtf pdf rt inc (EMR.step ont rtf pdf rt inc st o)
            n).currentResult.map (fun v => v.get "notes")
          = (EMR.step ont rtf pdf rt inc st o).currentResult.map
              (fun v => v.get "notes")) ∧
    (∀ ont rtf pdf rt inc (st : EMR.AState),
      (EMR.step ont rtf pdf rt inc (EMR.step ont rtf pdf rt inc st p)
            n).patient.map (fun v => v.get "notes")
          = some (.arr [EMR.parseNTE n]) ∧
        (EMR.step ont rtf pdf rt inc (EMR.step ont rtf pdf rt inc st p)
            n).currentResult = st.currentResult ∧
        (EMR.step ont rtf pdf rt inc (EMR.step ont rtf pdf rt inc st p)
            n).currentOBX = st.currentOBX) ∧
    (∀ ont rtf pdf rt inc (st : EMR.AState) (q : Val), st.patient = some q →
      (EMR.step ont rtf pdf rt inc (EMR.step ont rtf pdf rt inc st b)
            n).currentResult.map (fun v => v.get "notes")
          = some (.arr [EMR.parseNTE n]) ∧
        (EMR.step ont rtf pdf rt inc (EMR.step ont rtf pdf rt inc st b)
            n).patient = st.patient ∧
        (EMR.step ont rtf pdf rt inc (EMR.step ont rtf pdf rt inc st b)
            n).currentOBX = none) ∧
    (∀ ont rtf pdf rt inc (st : EMR.AState), st.currentNTEContext = .nul →
      EMR.step ont rtf pdf rt inc st n = st) := by
  refine ⟨?_, ?_, ?_, ?_, ?_, ?_, ?_, ?_⟩
  · intro st h
    obtain ⟨r, hr⟩ := Option.isSome_iff_exists.mp h
    rw [gdml_step_obx_open st o r ho hr]
    rw [gdml_step_nte_obx _ n hn rfl]
    refine ⟨?_, rfl, rfl⟩
    show some (((GDML.parseOBX o).pushToArrKey "notes"
      (GDML.parseNTE n)).get "notes") = _
    rw [gdml_parseOBX_note]
  · intro st
    rw [gdml_step_pid st p hp]
    rw [gdml_step_nte_pat _ n hn rfl]
    refine ⟨?_, rfl, rfl⟩
    show some (((GDML.parsePID p).pushToArrKey "notes"
      (GDML.parseNTE n)).get "notes") = _
    rw [gdml_parsePID_note]
  · intro st q hq
    rw [gdml_step_obr st b q hb hq]
    rw [gdml_step_nte_res _ n hn rfl]
    refine ⟨?_, rfl, rfl⟩
    show some (((GDML.parseOBR b).pushToArrKey "notes"
      (GDML.parseNTE n)).get "notes") = _
    rw [gdml_parseOBR_note]
  · intro st hc
    exact gdml_step_nte_nul st n hn hc
  · intro ont rtf pdf rt inc st h
    obtain ⟨r, hr⟩ := Option.isSome_iff_exists.mp h
    rw [emr_step_obx_open ont rtf pdf rt inc st o r ho hr]
    rw [emr_step_nte_obx ont rtf pdf rt inc _ n hn rfl]
    refine ⟨?_, rfl, rfl⟩
    show some (((EMR.parseOBX o ont rtf pdf inc).pushToArrKey "notes"
      (EMR.parseNTE n)).get "notes") = _
    rw [emr_parseOBX_note]
  · intro ont rtf pdf rt inc st
    rw [EMR.step_pid ont rtf pdf rt inc st p hp]
    rw [emr_step_nte_pat ont rtf pdf rt inc _ n hn rfl]
    refine ⟨?_, rfl, rfl⟩
    show some (((EMR.mkPatient p ont rtf pdf rt).pushToArrKey "notes"
      (EMR.parseNTE n)).get "notes") = _
    rw [emr_mkPatient_note]
  · intro ont rtf pdf rt inc st q hq
    rw [emr_step_obr ont rtf pdf rt inc st b q hb hq]
    rw [emr_step_nte_res ont rtf pdf rt inc _ n hn rfl]
    refine ⟨?_, rfl, rfl⟩
    show some (((EMR.parseOBR b ont).pushToArrKey "notes"
      (EMR.parseNTE n)).get "notes") = _
    rw [emr_parseOBR_note]
  · intro ont rtf pdf rt inc st hc
    exact emr_step_nte_nul ont rtf pdf rt inc st n hn hc

/-- Witness for C8 at concrete states and concrete OBX/PID/OBR/NTE
segments, exercising the observation, patient, result and no-context
cases. -/
theorem c8_witness :
    ((GDML.step (GDML.step ⟨none, [], some (GDML.parsePID ⟨"PID", []⟩),
          some (GDML.parseORC ⟨"ORC", []⟩), some (GDML.parseOBR ⟨"OBR", []⟩),
          none, .res⟩ ⟨"OBX", []⟩) ⟨"NTE", [("NTE.3", .str "hello")]⟩).currentOBX.map
        (fun v => v.get "notes")
      = some (.arr [GDML.parseNTE ⟨"NTE", [("NTE.3", .str "hello")]⟩])) ∧
    ((GDML.step (GDML.step GDML.initState ⟨"PID", []⟩)
        ⟨"NTE", [("NTE.3", .str "hello")]⟩).currentPatient.map
        (fun v => v.get "notes")
      = some (.arr [GDML.parseNTE ⟨"NTE", [("NTE.3", .str "hello")]⟩])) ∧
    ((GDML.step (GDML.step ⟨none, [], some (GDML.parsePID ⟨"PID", []⟩), none,
          none, none, .pat⟩ ⟨"OBR", []⟩)
        ⟨"NTE", [("NTE.3", .str "hello")]⟩).currentLabResult.map
        (fun v => v.get "notes")
      = some (.arr [GDML.parseNTE ⟨"NTE", [("NTE.3", .str "hello")]⟩])) ∧
    ((EMR.step .null false false .null false (EMR.step .null false false .null
          false EMR.initState ⟨"PID", []⟩)
        ⟨"NTE", [("NTE.3", .str "x")]⟩).patient.map (fun v => v.get "notes")
      = some (.arr [EMR.parseNTE ⟨"NTE", [("NTE.3", .str "x")]⟩])) ∧
    (EMR.step .null false false .null false
        ⟨none, none, none, none, none, false, .nul⟩
        ⟨"NTE", [("NTE.3", .str "x")]⟩
      = ⟨none, none, none, none, none, false, .nul⟩) := by
  refine ⟨?_, ?_, ?_, ?_, ?_⟩
  · exact ((c8_note_attachment ⟨"OBX", []⟩ ⟨"PID", []⟩ ⟨"OBR", []⟩
      ⟨"NTE", [("NTE.3", .str "hello")]⟩ rfl rfl rfl rfl).1
      ⟨none, [], some (GDML.parsePID ⟨"PID", []⟩),
        some (GDML.parseORC ⟨"ORC", []⟩), some (GDML.parseOBR ⟨"OBR", []⟩),
        none, .res⟩ rfl).1
  · exact ((c8_note_attachment ⟨"OBX", []⟩ ⟨"PID", []⟩ ⟨"OBR", []⟩
      ⟨"NTE", [("NTE.3", .str "hello")]⟩ rfl rfl rfl rfl).2.1
      GDML.initState).1
  · exact ((c8_note_attachment ⟨"OBX", []⟩ ⟨"PID", []⟩ ⟨"OBR", []⟩
      ⟨"NTE", [("NTE.3", .str "hello")]⟩ rfl rfl rfl rfl).2.2.1
      ⟨none, [], some (GDML.parsePID ⟨"PID", []⟩), none, none, none, .pat⟩
      (GDML.parsePID ⟨"PID", []⟩) rfl).1
  · exact ((c8_note_attachment ⟨"OBX", []⟩ ⟨"PID", []⟩ ⟨"OBR", []⟩
      ⟨"NTE", [("NTE.3", .str "x")]⟩ rfl rfl rfl rfl).2.2.2.2.2.1
      .null false false .null false EMR.initState).1
  · exact (c8_note_attachment ⟨"OBX", []⟩ ⟨"PID", []⟩ ⟨"OBR", []⟩
      ⟨"NTE", [("NTE.3", .str "x")]⟩ rfl rfl rfl rfl).2.2.2.2.2.2.2
      .null false false .null false
      ⟨none, none, none, none, none, false, .nul⟩ rfl

/-! ## Claim C5 -/

theorem strictEqStr_iff (v : Val) (lit : String) :
    strictEqStr v lit = true ↔ v = .str lit := by
  cases v <;> simp [strictEqStr]

theorem strContains_rtf_ne_empty (s : String)
    (h : strContains s EMR.rtfMarker = true) : (s != "") = true := by
  by_cases hs : s = ""
  · subst hs
    have hfalse : strContains "" EMR.rtfMarker = false := rfl
    rw [hfalse] at h
    cases h
  · simp [bne, hs]

theorem strPayload_rtf_iff (v : Val) :
    strPayloadContains v EMR.rtfMarker = true
      ↔ ∃ s, v = .str s ∧ strContains s EMR.rtfMarker = true := by
  cases v with
  | str s =>
      constructor
      · intro h
        rw [strPayloadContains, Bool.and_eq_true] at h
        exact ⟨s, rfl, h.2⟩
      · rintro ⟨s', hs, hc⟩
        injection hs with hs
        subst hs
        rw [strPayloadContains, Bool.and_eq_true]
        exact ⟨strContains_rtf_ne_empty s hc, hc⟩
  | null => simp [strPayloadContains]
  | bool b => simp [strPayloadContains]
  | arr xs => simp [strPayloadContains]
  | obj fs => simp [strPayloadContains]

/-- Following the spec's words (the reference definition C5 is checked
against): a message is a document report exactly when it carries exactly one
observation (OBX) segment, that segment's value type is the encapsulated-data
type `'ED'`, and either its payload (a string) contains the rich-text marker
token or the message's report type is Transcription or Cardiology. -/
def specDocumentReport (segments : List Segment) : Prop :=
  ∃ x, segments.filter (fun s => s.type == "OBX") = [x] ∧
    lookupKey x.data "OBX.2" = .str "ED" ∧
    ((∃ s, lookupKey x.data "OBX.5" = .str s ∧
        strContains s EMR.rtfMarker = true) ∨
      EMR.reportTypeVal segments = .str "Transcription" ∨
      EMR.reportTypeVal segments = .str "Cardiology")

theorem EMR.checkIfRTFReport_one (segs : List Segment) (x : Segment)
    (hf : segs.filter (fun s => s.type == "OBX") = [x]) :
    EMR.checkIfRTFReport segs
      = (strictEqStr (lookupKey x.data "OBX.2") "ED"
         && strPayloadContains (lookupKey x.data "OBX.5") EMR.rtfMarker) := by
  unfold EMR.checkIfRTFReport
  rw [hf]

theorem EMR.checkIfPDFReport_one (segs : List Segment) (rt : Val) (x : Segment)
    (hf : segs.filter (fun s => s.type == "OBX") = [x]) :
    EMR.checkIfPDFReport segs rt
      = ((strictEqStr rt "Transcription" || strictEqStr rt "Cardiology")
         && strictEqStr (lookupKey x.data "OBX.2") "ED") := by
  unfold EMR.checkIfPDFReport
  rw [hf]
  by_cases hC : (strictEqStr rt "Transcription"
      || strictEqStr rt "Cardiology") = true
  · rw [if_pos hC, hC, Bool.true_and]
  · rw [if_neg hC]
    rw [Bool.not_eq_true] at hC
    rw [hC, Bool.false_and]

theorem EMR.checkIfRTFReport_not_one (segs : List Segment)
    (hf : ∀ x, segs.filter (fun s => s.type == "OBX") ≠ [x]) :
    EMR.checkIfRTFReport segs = false := by
  unfold EMR.checkIfRTFReport
  cases hfe : segs.filter (fun s => s.type == "OBX") with
  | nil => rfl
  | cons x rest =>
      cases rest with
      | nil => exact absurd hfe (hf x)
      | cons y r' => rfl

theorem EMR.checkIfPDFReport_not_one (segs : List Segment) (rt : Val)
    (hf : ∀ x, segs.filter (fun s => s.type == "OBX") ≠ [x]) :
    EMR.checkIfPDFReport segs rt = false := by
  unfold EMR.checkIfPDFReport
  by_cases hC : (strictEqStr rt "Transcription"
      || strictEqStr rt "Cardiology") = true
  · rw [if_pos hC]
    cases hfe : segs.filter (fun s => s.type == "OBX") with
    | nil => rfl
    | cons x rest =>
        cases rest with
        | nil => exact absurd hfe (hf x)
        | cons y r' => rfl
  · rw [if_neg hC]

theorem c5_flag_iff (segs : List Segment) :
    (EMR.checkIfRTFReport segs
      || EMR.checkIfPDFReport segs (EMR.reportTypeVal segs)) = true
    ↔ specDocumentReport segs := by
  by_cases hone : ∃ x, segs.filter (fun s => s.type == "OBX") = [x]
  · obtain ⟨x, hf⟩ := hone
    rw [EMR.checkIfRTFReport_one segs x hf,
      EMR.checkIfPDFReport_one segs _ x hf]
    unfold specDocumentReport
    constructor
    · intro h
      simp only [Bool.or_eq_true, Bool.and_eq_true, strictEqStr_iff,
        strPayload_rtf_iff] at h
      rcases h with ⟨hed, hp⟩ | ⟨hC, hed⟩
      · exact ⟨x, hf, hed, Or.inl hp⟩
      · exact ⟨x, hf, hed, Or.inr hC⟩
    · rintro ⟨x', hx', hed, hdis⟩
      rw [hf] at hx'
      injection hx' with hx' htail
      subst hx'
      simp only [Bool.or_eq_true, Bool.and_eq_true, strictEqStr_iff,
        strPayload_rtf_iff]
      rcases hdis with hp | hrt | hrt
      · exact Or.inl ⟨hed, hp⟩
      · exact Or.inr ⟨Or.inl hrt, hed⟩
      · exact Or.inr ⟨Or.inr hrt, hed⟩
  · push_neg at hone
    rw [EMR.checkIfRTFReport_not_one segs hone,
      EMR.checkIfPDFReport_not_one segs _ hone]
    constructor
    · intro h; cases h
    · rintro ⟨x', hx', -⟩
      exact absurd hx' (hone x')

theorem EMR.assemble_isDocumentReport (ont : Val) (rtf pdf : Bool) (rt : Val)
    (st : EMR.AState) :
    (EMR.assemble ont rtf pdf rt st).get "isDocumentReport"
      = .bool (rtf || pdf) := rfl

/-- C5: the EMR parse output carries `isDocumentReport = true` if and only if
the message holds exactly one OBX segment of the encapsulated-data value type
`'ED'` whose payload contains the rich-text marker token (RTF document) or
whose report type is Transcription or Cardiology (PDF document);
`specDocumentReport` states that condition in the spec's words.  (Pruning is
immaterial to this boolean field and the theorem reads the unpruned
output.) -/
theorem c5_document_report_iff (segs : List Segment) (r : Bool)
    (h : segs.any (fun s => s.type == "MSH") = true) :
    ∃ out, EMR.parseEMRHL7Message segs false r = .ok out ∧
      (out.get "isDocumentReport" = .bool true ↔ specDocumentReport segs) := by
  have ht : tokenize segs = .ok segs := by
    unfold tokenize
    rw [if_pos h]
  refine ⟨_, by unfold EMR.parseEMRHL7Message; rw [ht], ?_⟩
  rw [show (if false = true then
      EMR.removeEmptyFields (EMR.assemble (EMR.isOntarioFormatVal segs)
        (EMR.checkIfRTFReport segs)
        (EMR.checkIfPDFReport segs (EMR.reportTypeVal segs))
        (EMR.reportTypeVal segs)
        (segs.foldl (EMR.step (EMR.isOntarioFormatVal segs)
          (EMR.checkIfRTFReport segs)
          (EMR.checkIfPDFReport segs (EMR.reportTypeVal segs))
          (EMR.reportTypeVal segs) r) EMR.initState))
    else EMR.assemble (EMR.isOntarioFormatVal segs)
      (EMR.checkIfRTFReport segs)
      (EMR.checkIfPDFReport segs (EMR.reportTypeVal segs))
      (EMR.reportTypeVal segs)
      (segs.foldl (EMR.step (EMR.isOntarioFormatVal segs)
        (EMR.checkIfRTFReport segs)
        (EMR.checkIfPDFReport segs (EMR.reportTypeVal segs))
        (EMR.reportTypeVal segs) r) EMR.initState))
    = EMR.assemble (EMR.isOntarioFormatVal segs)
      (EMR.checkIfRTFReport segs)
      (EMR.checkIfPDFReport segs (EMR.reportTypeVal segs))
      (EMR.reportTypeVal segs)
      (segs.foldl (EMR.step (EMR.isOntarioFormatVal segs)
        (EMR.checkIfRTFReport segs)
        (EMR.checkIfPDFReport segs (EMR.reportTypeVal segs))
        (EMR.reportTypeVal segs) r) EMR.initState) from rfl]
  rw [EMR.assemble_isDocumentReport]
  rw [show (Val.bool (EMR.checkIfRTFReport segs
      || EMR.checkIfPDFReport segs (EMR.reportTypeVal segs)) = Val.bool true)
    = ((EMR.checkIfRTFReport segs
      || EMR.checkIfPDFReport segs (EMR.reportTypeVal segs)) = true) from
    by simp]
  exact c5_flag_iff segs

/-- Witness for C5 at a concrete one-OBX Transcription message. -/
theorem c5_witness :
    ∃ out, EMR.parseEMRHL7Message
        [⟨"MSH", []⟩, ⟨"OBR", [("OBR.24", .str "TRN")]⟩,
          ⟨"OBX", [("OBX.2", .str "ED"), ("OBX.5", .str "x")]⟩] false false
      = .ok out ∧
      (out.get "isDocumentReport" = .bool true ↔ specDocumentReport
        [⟨"MSH", []⟩, ⟨"OBR", [("OBR.24", .str "TRN")]⟩,
          ⟨"OBX", [("OBX.2", .str "ED"), ("OBX.5", .str "x")]⟩]) :=
  c5_document_report_iff
    [⟨"MSH", []⟩, ⟨"OBR", [("OBR.24", .str "TRN")]⟩,
      ⟨"OBX", [("OBX.2", .str "ED"), ("OBX.5", .str "x")]⟩] false rfl

/-! ## Claim C6 -/

/-- C6 counterexample: a Transcription message with one `ED` observation is a
document report (`isDocumentReport = true`), yet with `includeRTFContent =
false` the observation's value in the output is the FULL payload
`"JVBERi0xLjQK"` (which contains no `'ED'` substring), not a sentinel
placeholder — the payload is only replaced when it happens to contain the
substring `'ED'`. -/
theorem c6_counterexample :
    ((EMR.parseEMRHL7Message
        [⟨"MSH", [("MSH.12", .str "2.3")]⟩,
          ⟨"PID", [("PID.5", .obj [("PID.5.1", .str "DOE")])]⟩,
          ⟨"OBR", [("OBR.24", .str "TRN")]⟩,
          ⟨"OBX", [("OBX.2", .str "ED"), ("OBX.5", .str "JVBERi0xLjQK")]⟩]
        true false).toOption.map (fun v => v.get "isDocumentReport")
      = some (.bool true)) ∧
    ((EMR.parseEMRHL7Message
        [⟨"MSH", [("MSH.12", .str "2.3")]⟩,
          ⟨"PID", [("PID.5", .obj [("PID.5.1", .str "DOE")])]⟩,
          ⟨"OBR", [("OBR.24", .str "TRN")]⟩,
          ⟨"OBX", [("OBX.2", .str "ED"), ("OBX.5", .str "JVBERi0xLjQK")]⟩]
        true false).toOption.map (fun v =>
          ((((((v.get "patients").jsAt 0).get "orders").jsAt 0).get
            "labResults").jsAt 0 |>.get "observations").jsAt 0 |>.get
            "observationResults")
      = some (.str "JVBERi0xLjQK")) ∧
    (Val.str "JVBERi0xLjQK" ≠ .str "PDF_CONTENT_AVAILABLE") ∧
    (Val.str "JVBERi0xLjQK" ≠ .str "RTF_CONTENT_AVAILABLE") := by
  refine ⟨rfl, rfl, ?_, ?_⟩
  · intro h
    injection h with h
    exact absurd h (by decide)
  · intro h
    injection h with h
    exact absurd h (by decide)

theorem truthy_str_of_ne (s : String) (h : s ≠ "") :
    (Val.str s).truthy = true := by
  simp [Val.truthy, h]

/-- C6 (amended): for an RTF document report, a payload string containing the
rich-text marker is returned whole when the caller sets `includeRTFContent`
and is replaced by the sentinel `'RTF_CONTENT_AVAILABLE'` otherwise; for a
PDF document report, `includeRTFContent` has no effect: the payload string is
replaced by the sentinel `'PDF_CONTENT_AVAILABLE'` exactly when it contains
the substring `'ED'`, and is otherwise returned whole as a regular value. -/
theorem c6_document_value (s : String) (pdf inc : Bool) :
    (strContains s EMR.rtfMarker = true →
      EMR.processObservationValue (.str s) true pdf inc
        = (if inc then .str s else .str "RTF_CONTENT_AVAILABLE")) ∧
    (s ≠ "" → strContains s EMR.rtfMarker = false →
      EMR.processObservationValue (.str s) false true inc
        = (if strContains s "ED" then .str "PDF_CONTENT_AVAILABLE"
           else .str s)) := by
  constructor
  · intro hc
    have hne : s ≠ "" := by
      intro he
      subst he
      have hfalse : strContains "" EMR.rtfMarker = false := rfl
      rw [hfalse] at hc
      cases hc
    unfold EMR.processObservationValue
    rw [truthy_str_of_ne s hne]
    rw [if_neg (by simp)]
    rw [if_pos (show (true && (match Val.str s with
      | .str s => strContains s EMR.rtfMarker
      | _ => false)) = true by rw [Bool.true_and]; exact hc)]
  · intro hne hnc
    unfold EMR.processObservationValue
    rw [truthy_str_of_ne s hne]
    rw [if_neg (by simp)]
    rw [if_neg (show ¬ (false && (match Val.str s with
      | .str s => strContains s EMR.rtfMarker
      | _ => false)) = true by rw [Bool.false_and]; exact Bool.false_ne_true)]
    by_cases hed : strContains s "ED" = true
    · rw [if_pos hed]
      rw [if_pos (show (true && (match Val.str s with
        | .str s => strContains s "ED"
        | _ => false)) = true by rw [Bool.true_and]; exact hed)]
    · rw [if_neg hed]
      rw [if_neg (show ¬ (true && (match Val.str s with
        | .str s => strContains s "ED"
        | _ => false)) = true by rw [Bool.true_and]; exact hed)]
      show jsOr (.str s) (.str "") = Val.str s
      unfold jsOr
      rw [truthy_str_of_ne s hne, if_pos rfl]

/-- Witness for C6 (amended) at concrete RTF and PDF payloads. -/
theorem c6_witness :
    ((strContains "a\\E\\rtf1\\Eb" EMR.rtfMarker = true →
      EMR.processObservationValue (.str "a\\E\\rtf1\\Eb") true false false
        = (if false then .str "a\\E\\rtf1\\Eb"
           else .str "RTF_CONTENT_AVAILABLE")) ∧
    ("a\\E\\rtf1\\Eb" ≠ "" → strContains "a\\E\\rtf1\\Eb" EMR.rtfMarker = false →
      EMR.processObservationValue (.str "a\\E\\rtf1\\Eb") false true false
        = (if strContains "a\\E\\rtf1\\Eb" "ED"
           then .str "PDF_CONTENT_AVAILABLE"
           else .str "a\\E\\rtf1\\Eb"))) ∧
    ((strContains "JVBERi0xLjQK" EMR.rtfMarker = true →
      EMR.processObservationValue (.str "JVBERi0xLjQK") true true true
        = (if true then .str "JVBERi0xLjQK"
           else .str "RTF_CONTENT_AVAILABLE")) ∧
    ("JVBERi0xLjQK" ≠ "" → strContains "JVBERi0xLjQK" EMR.rtfMarker = false →
      EMR.processObservationValue (.str "JVBERi0xLjQK") false true true
        = (if strContains "JVBERi0xLjQK" "ED"
           then .str "PDF_CONTENT_AVAILABLE"
           else .str "JVBERi0xLjQK"))) :=
  ⟨c6_document_value "a\\E\\rtf1\\Eb" false false,
   c6_document_value "JVBERi0xLjQK" true true⟩

/-! ## Claim C10 -/

theorem isEmptyField_arr (xs : List Val) : isEmptyField (.arr xs) = false := rfl

theorem arrLen_toList (o : Option Val) : (Val.arr o.toList).arrLen ≤ 1 := by
  cases o <;> simp [Val.arrLen, Option.toList]

theorem arrLen_prune_toList (o : Option Val) :
    (Val.arr (EMR.pruneElems o.toList)).arrLen ≤ 1 := by
  cases o <;> simp [Val.arrLen, Option.toList, EMR.pruneElems]

theorem EMR.assemble_get_patients (ont : Val) (rtf pdf : Bool) (rt : Val)
    (st : EMR.AState) :
    (EMR.assemble ont rtf pdf rt st).get "patients"
      = .arr (st.patient.map (fun p =>
          if st.orderAttached = true then
            match closeOrder st.currentOrder st.currentResult st.currentOBX with
            | some od => p.pushToArrKey "orders" od
            | none => p
          else p)).toList := rfl

theorem EMR.assemble_get_patients_pruned (ont : Val) (rtf pdf : Bool)
    (rt : Val) (st : EMR.AState) :
    (EMR.removeEmptyFields (EMR.assemble ont rtf pdf rt st)).get "patients"
      = .arr (EMR.pruneElems (st.patient.map (fun p =>
          if st.orderAttached = true then
            match closeOrder st.currentOrder st.currentResult st.currentOBX with
            | some od => p.pushToArrKey "orders" od
            | none => p
          else p)).toList) := by
  show (Val.obj (EMR.pruneFields
    (("messageHeader", jsOr (st.messageHeader.getD .null) (.obj []))
      :: ("patients", _) :: _))).get "patients" = _
  rw [emr_pruneFields_cons, isEmptyField_jsOr_obj,
    if_neg Bool.false_ne_true]
  show lookupKey (("messageHeader", _) :: EMR.pruneFields (("patients", _) :: _))
    "patients" = _
  rw [lookupKey_cons, if_neg (by decide), emr_pruneFields_cons, isEmptyField_arr,
    if_neg Bool.false_ne_true, lookupKey_cons, if_pos (by decide)]
  rfl

theorem EMR.mkPatient_fresh (seg : Segment) (ont : Val) (rtf pdf : Bool)
    (rt : Val) :
    (EMR.mkPatient seg ont rtf pdf rt).get "orders" = .null ∧
    (EMR.mkPatient seg ont rtf pdf rt).get "notes" = .arr [] := by
  unfold EMR.mkPatient EMR.parsePID
  by_cases h : ont.truthy = true
  · rw [if_pos h]
    by_cases hd : (rtf || pdf) = true
    · rw [if_pos hd]
      exact ⟨rfl, rfl⟩
    · rw [if_neg hd]
      exact ⟨rfl, rfl⟩
  · rw [if_neg h]
    by_cases hd : (rtf || pdf) = true
    · rw [if_pos hd]
      exact ⟨rfl, rfl⟩
    · rw [if_neg hd]
      exact ⟨rfl, rfl⟩

/-- C10: the EMR parse output's `patients` array always has length at most 1;
a PID segment unconditionally overwrites the current patient with the patient
freshly built from that segment (so with several PID segments only the last
one's patient can appear in the output) and marks any in-flight order subtree
as belonging to the dropped patient (`orderAttached := false`, so the
finalizer never flushes it into the new patient); and the freshly built
patient starts with no `orders` key and an empty `notes` list — nothing
attached while an earlier PID was current is carried over. -/
theorem c10_single_patient :
    (∀ segs b r out, EMR.parseEMRHL7Message segs b r = .ok out →
      (out.get "patients").arrLen ≤ 1) ∧
    (∀ ont rtf pdf rt inc (st : EMR.AState) (s : Segment), s.type = "PID" →
      (EMR.step ont rtf pdf rt inc st s).patient
          = some (EMR.mkPatient s ont rtf pdf rt) ∧
        (EMR.step ont rtf pdf rt inc st s).orderAttached = false) ∧
    (∀ seg ont rtf pdf rt,
      (EMR.mkPatient seg ont rtf pdf rt).get "orders" = .null ∧
      (EMR.mkPatient seg ont rtf pdf rt).get "notes" = .arr []) := by
  refine ⟨?_, ?_, ?_⟩
  · intro segs b r out hok
    unfold EMR.parseEMRHL7Message tokenize at hok
    by_cases h : (segs.any fun s => s.type == "MSH") = true
    · rw [if_pos h] at hok
      injection hok with hout
      subst hout
      cases b with
      | false =>
          rw [if_neg (by simp)]
          rw [EMR.assemble_get_patients]
          exact arrLen_toList _
      | true =>
          rw [if_pos rfl]
          rw [EMR.assemble_get_patients_pruned]
          exact arrLen_prune_toList _
    · rw [if_neg h] at hok
      cases hok
  · intro ont rtf pdf rt inc st s hs
    rw [EMR.step_pid ont rtf pdf rt inc st s hs]
    exact ⟨rfl, rfl⟩
  · intro seg ont rtf pdf rt
    exact EMR.mkPatient_fresh seg ont rtf pdf rt

/-- Witness for C10 at a concrete two-PID message. -/
theorem c10_witness :
    (((EMR.parseEMRHL7Message
        [⟨"MSH", []⟩, ⟨"PID", [("PID.8", .str "F")]⟩, ⟨"ORC", []⟩,
          ⟨"PID", [("PID.8", .str "M")]⟩] true false).toOption.getD
        .null).get "patients").arrLen ≤ 1 ∧
    ((EMR.step .null false false .null false EMR.initState
        ⟨"PID", [("PID.8", .str "M")]⟩).patient
      = some (EMR.mkPatient ⟨"PID", [("PID.8", .str "M")]⟩ .null false false
          .null)) ∧
    (EMR.mkPatient ⟨"PID", [("PID.8", .str "M")]⟩ .null false false
        .null).get "orders" = .null := by
  refine ⟨?_, ?_, ?_⟩
  · exact c10_single_patient.1
      [⟨"MSH", []⟩, ⟨"PID", [("PID.8", .str "F")]⟩, ⟨"ORC", []⟩,
        ⟨"PID", [("PID.8", .str "M")]⟩] true false _ rfl
  · exact (c10_single_patient.2.1 .null false false .null false EMR.initState
      ⟨"PID", [("PID.8", .str "M")]⟩ rfl).1
  · exact (c10_single_patient.2.2 ⟨"PID", [("PID.8", .str "M")]⟩ .null false
      false .null).1

/-! ## Claim C4 -/

/-- C4 counterexample: in the EMR parser's Ontario branch, a single bare
(non-repeated) address value in `PID.11` produces an EMPTY `addresses`
sequence — the address is dropped — instead of the one-element sequence the
claim requires; the same shows up in the full parse output. -/
theorem c4_counterexample :
    ((EMR.parsePID ⟨"PID", [("PID.11", .obj [("PID.11.1", .str "123 Main St")])]⟩
        (.bool true)).get "addresses" = .arr []) ∧
    (((EMR.parsePID ⟨"PID", [("PID.11", .obj [("PID.11.1", .str "123 Main St")])]⟩
        (.bool true)).get "addresses").arrLen ≠ 1) ∧
    ((EMR.parseEMRHL7Message
        [⟨"MSH", [("MSH.12", .str "2.3.1")]⟩,
          ⟨"PID", [("PID.11", .obj [("PID.11.1", .str "123 Main St")])]⟩]
        true false).toOption.map (fun v =>
          (((v.get "patients").jsAt 0).get "addresses").arrLen)
      = some 0) := by
  refine ⟨rfl, by decide, rfl⟩

theorem val_arrLen_arr (xs : List Val) : (Val.arr xs).arrLen = xs.length := rfl

/-- A concrete PID segment used to witness C4: one bare (non-repeated) name,
a twice-repeated address, and one bare plain-string phone number. -/
def c4Seg : Segment :=
  ⟨"PID", [("PID.5", .obj [("PID.5.1", .str "DOE")]),
    ("PID.11", .arr [.obj [("PID.11.1", .str "A")],
      .obj [("PID.11.1", .str "B")]]),
    ("PID.13", .str "604-555-0100")]⟩

/-- A concrete PID segment used to witness C4: a twice-repeated phone number
whose second repetition has an empty first component. -/
def c4PhoneSeg : Segment :=
  ⟨"PID", [("PID.13", .arr [.obj [("PID.13.1", .str "604-555-0100")],
    .obj [("PID.13.1", .str "")]])]⟩

theorem GDML.parsePID_get_names (seg : Segment) :
    (GDML.parsePID seg).get "names"
      = (if (lookupKey seg.data "PID.5").truthy = true then
          Val.arr ((asArray (lookupKey seg.data "PID.5")).map fun name => .obj [
            ("familyName", jsOr (name.get "PID.5.1") (.str "")),
            ("givenName", jsOr (name.get "PID.5.2") (.str "")),
            ("middleName", jsOr (name.get "PID.5.3") (.str ""))])
        else .arr []) := rfl

theorem GDML.parsePID_get_addresses (seg : Segment) :
    (GDML.parsePID seg).get "addresses"
      = (if (lookupKey seg.data "PID.11").truthy = true then
          Val.arr ((asArray (lookupKey seg.data "PID.11")).map fun addr => .obj [
            ("street", jsOr (addr.get "PID.11.1") (.str "")),
            ("apt", jsOr (addr.get "PID.11.2") (.str "")),
            ("city", jsOr (addr.get "PID.11.3") (.str "")),
            ("province", jsOr (addr.get "PID.11.4") (.str "")),
            ("postalCode", jsOr (addr.get "PID.11.5") (.str "")),
            ("country", jsOr (addr.get "PID.11.6") (.str ""))])
        else .arr []) := rfl

theorem GDML.parsePID_get_phoneNumbers (seg : Segment) :
    (GDML.parsePID seg).get "phoneNumbers"
      = (if (lookupKey seg.data "PID.13").truthy = true then
          Val.arr ((match lookupKey seg.data "PID.13" with
            | .arr xs => xs
            | v => [jsOr v (.str "")]).map fun (phone : Val) =>
              jsOr phone (.str ""))
        else .arr []) := rfl

theorem GDML.parsePID_get_patientIdExternal (seg : Segment) :
    (GDML.parsePID seg).get "patientIdExternal"
      = Val.arr ((match lookupKey seg.data "PID.3" with
          | .arr xs => xs
          | v => [jsOr v (.obj [])]).map fun (id : Val) => .obj [
            ("uniqueIdentifier", jsOr (id.get "PID.3.1") (.str "")),
            ("assigningFacility", .obj [
              ("authority", jsOr ((id.get "PID.3.4").get "PID.3.4.1") (.str "")),
              ("identifierType", jsOr ((id.get "PID.3.4").get "PID.3.4.2") (.str "")),
              ("facilityId", jsOr ((id.get "PID.3.4").get "PID.3.4.3") (.str ""))])]) := rfl

theorem GDML.parseOBR_get_resultCopiesTo (seg : Segment) :
    (GDML.parseOBR seg).get "resultCopiesTo"
      = (if (lookupKey seg.data "OBR.28").truthy = true then
          Val.arr ((asArray (lookupKey seg.data "OBR.28")).map fun copy => .obj [
            ("idNumber", jsOr (copy.get "OBR.28.1") (.str "")),
            ("familyName", jsOr (copy.get "OBR.28.2") (.str "")),
            ("givenName", jsOr (copy.get "OBR.28.3") (.str "")),
            ("assigningFacility", jsOr (copy.get "OBR.28.14") (.str ""))])
        else .arr []) := rfl

theorem EMR.parsePID_ont_get_names (seg : Segment) (ont : Val)
    (h : ont.truthy = true) :
    (EMR.parsePID seg ont).get "names"
      = Val.arr (match lookupKey seg.data "PID.5" with
        | .arr xs => xs.map fun (name : Val) => .obj [
            ("familyName", jsOr (name.get "PID.5.1") (.str "")),
            ("givenName", jsOr (name.get "PID.5.2") (.str "")),
            ("middleName", jsOr (name.get "PID.5.3") (.str "")),
            ("nameType", .str "L")]
        | v => [.obj [
            ("familyName", jsOr (v.get "PID.5.1") (.str "")),
            ("givenName", jsOr (v.get "PID.5.2") (.str "")),
            ("middleName", jsOr (v.get "PID.5.3") (.str "")),
            ("nameType", .str "L")]]) := by
  unfold EMR.parsePID
  rw [if_pos h]
  rfl

theorem EMR.parsePID_ont_get_addresses (seg : Segment) (ont : Val)
    (h : ont.truthy = true) :
    (EMR.parsePID seg ont).get "addresses"
      = Val.arr (match lookupKey seg.data "PID.11" with
        | .arr xs => xs.map fun (addr : Val) => .obj [
            ("street", jsOr (addr.get "PID.11.1") (.str "")),
            ("otherDesignation", jsOr (addr.get "PID.11.2") (.str "")),
            ("city", jsOr (addr.get "PID.11.3") (.str "")),
            ("province", jsOr (addr.get "PID.11.4") (.str "")),
            ("postalCode", jsOr (addr.get "PID.11.5") (.str "")),
            ("country", jsOr (addr.get "PID.11.6") (.str ""))]
        | _ => []) := by
  unfold EMR.parsePID
  rw [if_pos h]
  rfl

theorem truthy_jsOr_empty (x : Val) :
    (jsOr x (.str "")).truthy = x.truthy := by
  unfold jsOr
  by_cases h : x.truthy = true
  · rw [if_pos h]
  · rw [if_neg h]
    rw [Bool.not_eq_true] at h
    rw [h]
    rfl

theorem single_phone_len (v : Val) :
    ([jsOr (v.get "PID.13.1") (.str "")].filter Val.truthy).length
      = (if (v.get "PID.13.1").truthy = true then 1 else 0) := by
  by_cases h : (v.get "PID.13.1").truthy = true
  · have ht : Val.truthy (jsOr (v.get "PID.13.1") (.str "")) = true := by
      rw [truthy_jsOr_empty]
      exact h
    rw [if_pos h]
    simp [List.filter_cons, ht]
  · have ht : Val.truthy (jsOr (v.get "PID.13.1") (.str "")) = false := by
      rw [truthy_jsOr_empty]
      rw [Bool.not_eq_true] at h
      exact h
    rw [if_neg h]
    simp [List.filter_cons, ht]

theorem phone_filter_len (ys : List Val) :
    ((ys.map fun (phone : Val) => jsOr (phone.get "PID.13.1")
        (.str "")).filter Val.truthy).length
      = (ys.filter fun (y : Val) => (y.get "PID.13.1").truthy).length := by
  induction ys with
  | nil => rfl
  | cons y ys ih =>
    rw [List.map_cons, List.filter_cons, List.filter_cons, truthy_jsOr_empty]
    by_cases h : (y.get "PID.13.1").truthy = true
    · rw [if_pos h, if_pos h, List.length_cons, List.length_cons, ih]
    · rw [if_neg h, if_neg h]
      exact ih

theorem EMR.parsePID_ont_get_phoneNumbers (seg : Segment) (ont : Val)
    (h : ont.truthy = true) :
    (EMR.parsePID seg ont).get "phoneNumbers"
      = Val.arr ((match lookupKey seg.data "PID.13" with
        | .arr xs => xs.map fun (phone : Val) =>
            jsOr (phone.get "PID.13.1") (.str "")
        | v => [jsOr (v.get "PID.13.1") (.str "")]).filter Val.truthy) := by
  unfold EMR.parsePID
  rw [if_pos h]
  rfl

/-- C4 (amended): fields declared repeatable normalize to ordered sequences —
a repeated field of N entries always yields an N-element sequence, and a
single bare (non-repeated) value yields a one-element sequence — for the GDML
patient mapper's names, addresses, phone numbers and external ids, for the
GDML request mapper's copy-to recipients, and for the EMR Ontario patient
mapper's names; the two exceptions are both in the EMR Ontario patient
mapper: its addresses, where a single bare value yields the EMPTY sequence
(the address is dropped) while only genuinely repeated values yield their N
elements, and its phone numbers, which are filtered by the truthiness of
their first component — a single bare value yields one element exactly when
its `PID.13.1` component is non-empty (so a bare plain-string phone yields
the empty sequence), and a repetition of N entries yields only those entries
whose `PID.13.1` component is non-empty. -/
theorem c4_repeating_fields (seg : Segment) :
    (((lookupKey seg.data "PID.5").truthy = true →
        (∀ ys, lookupKey seg.data "PID.5" ≠ .arr ys) →
        ((GDML.parsePID seg).get "names").arrLen = 1) ∧
      (∀ ys, lookupKey seg.data "PID.5" = .arr ys →
        ((GDML.parsePID seg).get "names").arrLen = ys.length)) ∧
    (((lookupKey seg.data "PID.11").truthy = true →
        (∀ ys, lookupKey seg.data "PID.11" ≠ .arr ys) →
        ((GDML.parsePID seg).get "addresses").arrLen = 1) ∧
      (∀ ys, lookupKey seg.data "PID.11" = .arr ys →
        ((GDML.parsePID seg).get "addresses").arrLen = ys.length)) ∧
    (((lookupKey seg.data "PID.13").truthy = true →
        (∀ ys, lookupKey seg.data "PID.13" ≠ .arr ys) →
        ((GDML.parsePID seg).get "phoneNumbers").arrLen = 1) ∧
      (∀ ys, lookupKey seg.data "PID.13" = .arr ys →
        ((GDML.parsePID seg).get "phoneNumbers").arrLen = ys.length)) ∧
    (((∀ ys, lookupKey seg.data "PID.3" ≠ .arr ys) →
        ((GDML.parsePID seg).get "patientIdExternal").arrLen = 1) ∧
      (∀ ys, lookupKey seg.data "PID.3" = .arr ys →
        ((GDML.parsePID seg).get "patientIdExternal").arrLen = ys.length)) ∧
    (((lookupKey seg.data "OBR.28").truthy = true →
        (∀ ys, lookupKey seg.data "OBR.28" ≠ .arr ys) →
        ((GDML.parseOBR seg).get "resultCopiesTo").arrLen = 1) ∧
      (∀ ys, lookupKey seg.data "OBR.28" = .arr ys →
        ((GDML.parseOBR seg).get "resultCopiesTo").arrLen = ys.length)) ∧
    (∀ ont : Val, ont.truthy = true →
      ((∀ ys, lookupKey seg.data "PID.5" ≠ .arr ys) →
        ((EMR.parsePID seg ont).get "names").arrLen = 1) ∧
      (∀ ys, lookupKey seg.data "PID.5" = .arr ys →
        ((EMR.parsePID seg ont).get "names").arrLen = ys.length) ∧
      ((∀ ys, lookupKey seg.data "PID.11" ≠ .arr ys) →
        ((EMR.parsePID seg ont).get "addresses").arrLen = 0) ∧
      (∀ ys, lookupKey seg.data "PID.11" = .arr ys →
        ((EMR.parsePID seg ont).get "addresses").arrLen = ys.length) ∧
      ((∀ ys, lookupKey seg.data "PID.13" ≠ .arr ys) →
        ((EMR.parsePID seg ont).get "phoneNumbers").arrLen
          = (if ((lookupKey seg.data "PID.13").get "PID.13.1").truthy = true
              then 1 else 0)) ∧
      (∀ ys, lookupKey seg.data "PID.13" = .arr ys →
        ((EMR.parsePID seg ont).get "phoneNumbers").arrLen
          = (ys.filter fun (y : Val) =>
              (y.get "PID.13.1").truthy).length)) := by
  refine ⟨⟨?_, ?_⟩, ⟨?_, ?_⟩, ⟨?_, ?_⟩, ⟨?_, ?_⟩, ⟨?_, ?_⟩, ?_⟩
  · intro ht hna
    rw [GDML.parsePID_get_names, if_pos ht, asArray_of_not_arr _ hna]
    simp [Val.arrLen]
  · intro ys hv
    rw [GDML.parsePID_get_names, hv,
      if_pos (show (Val.arr ys).truthy = true from rfl)]
    simp [asArray, Val.arrLen]
  · intro ht hna
    rw [GDML.parsePID_get_addresses, if_pos ht, asArray_of_not_arr _ hna]
    simp [Val.arrLen]
  · intro ys hv
    rw [GDML.parsePID_get_addresses, hv,
      if_pos (show (Val.arr ys).truthy = true from rfl)]
    simp [asArray, Val.arrLen]
  · intro ht hna
    rw [GDML.parsePID_get_phoneNumbers, if_pos ht]
    cases hvv : lookupKey seg.data "PID.13" with
    | arr ys => exact absurd hvv (hna ys)
    | null => rw [hvv] at ht; cases ht
    | bool b => simp [Val.arrLen]
    | str c => simp [Val.arrLen]
    | obj fs => simp [Val.arrLen]
  · intro ys hv
    rw [GDML.parsePID_get_phoneNumbers, hv,
      if_pos (show (Val.arr ys).truthy = true from rfl)]
    simp [Val.arrLen]
  · intro hna
    rw [GDML.parsePID_get_patientIdExternal]
    cases hvv : lookupKey seg.data "PID.3" with
    | arr ys => exact absurd hvv (hna ys)
    | null => simp [Val.arrLen]
    | bool b => simp [Val.arrLen]
    | str c => simp [Val.arrLen]
    | obj fs => simp [Val.arrLen]
  · intro ys hv
    rw [GDML.parsePID_get_patientIdExternal, hv]
    simp [Val.arrLen]
  · intro ht hna
    rw [GDML.parseOBR_get_resultCopiesTo, if_pos ht, asArray_of_not_arr _ hna]
    simp [Val.arrLen]
  · intro ys hv
    rw [GDML.parseOBR_get_resultCopiesTo, hv,
      if_pos (show (Val.arr ys).truthy = true from rfl)]
    simp [asArray, Val.arrLen]
  · intro ont hont
    refine ⟨?_, ?_, ?_, ?_, ?_, ?_⟩
    · intro hna
      rw [EMR.parsePID_ont_get_names seg ont hont]
      cases hvv : lookupKey seg.data "PID.5" with
      | arr ys => exact absurd hvv (hna ys)
      | null => simp [Val.arrLen]
      | bool b => simp [Val.arrLen]
      | str c => simp [Val.arrLen]
      | obj fs => simp [Val.arrLen]
    · intro ys hv
      rw [EMR.parsePID_ont_get_names seg ont hont, hv]
      simp [Val.arrLen]
    · intro hna
      rw [EMR.parsePID_ont_get_addresses seg ont hont]
      cases hvv : lookupKey seg.data "PID.11" with
      | arr ys => exact absurd hvv (hna ys)
      | null => simp [Val.arrLen]
      | bool b => simp [Val.arrLen]
      | str c => simp [Val.arrLen]
      | obj fs => simp [Val.arrLen]
    · intro ys hv
      rw [EMR.parsePID_ont_get_addresses seg ont hont, hv]
      simp [Val.arrLen]
    · intro hna
      rw [EMR.parsePID_ont_get_phoneNumbers seg ont hont]
      cases hvv : lookupKey seg.data "PID.13" with
      | arr ys => exact absurd hvv (hna ys)
      | null => rw [val_arrLen_arr]; exact single_phone_len _
      | bool b => rw [val_arrLen_arr]; exact single_phone_len _
      | str c => rw [val_arrLen_arr]; exact single_phone_len _
      | obj fs => rw [val_arrLen_arr]; exact single_phone_len _
    · intro ys hv
      rw [EMR.parsePID_ont_get_phoneNumbers seg ont hont, hv, val_arrLen_arr]
      exact phone_filter_len ys

/-- Witness for C4 (amended) at `c4Seg` and `c4PhoneSeg`: the bare name
yields one element and the twice-repeated address yields two in both
parsers; in the EMR Ontario mapper the bare plain-string phone yields zero
elements and the twice-repeated phone with one empty first component yields
one. -/
theorem c4_witness :
    ((GDML.parsePID c4Seg).get "names").arrLen = 1 ∧
    ((GDML.parsePID c4Seg).get "addresses").arrLen = 2 ∧
    ((EMR.parsePID c4Seg (.bool true)).get "addresses").arrLen = 2 ∧
    ((EMR.parsePID c4Seg (.bool true)).get "phoneNumbers").arrLen = 0 ∧
    ((EMR.parsePID c4PhoneSeg (.bool true)).get "phoneNumbers").arrLen = 1 := by
  have h := c4_repeating_fields c4Seg
  have hp := c4_repeating_fields c4PhoneSeg
  refine ⟨?_, ?_, ?_, ?_, ?_⟩
  · refine h.1.1 (by decide) ?_
    intro ys hys
    rw [show lookupKey c4Seg.data "PID.5"
      = Val.obj [("PID.5.1", Val.str "DOE")] from rfl] at hys
    exact Val.noConfusion hys
  · exact h.2.1.2 [.obj [("PID.11.1", .str "A")],
      .obj [("PID.11.1", .str "B")]] rfl
  · exact (h.2.2.2.2.2 (.bool true) rfl).2.2.2.1
      [.obj [("PID.11.1", .str "A")], .obj [("PID.11.1", .str "B")]] rfl
  · refine Eq.trans ((h.2.2.2.2.2 (.bool true) rfl).2.2.2.2.1 ?_) (by decide)
    intro ys hys
    rw [show lookupKey c4Seg.data "PID.13"
      = Val.str "604-555-0100" from rfl] at hys
    exact Val.noConfusion hys
  · refine Eq.trans ((hp.2.2.2.2.2 (.bool true) rfl).2.2.2.2.2
      [.obj [("PID.13.1", .str "604-555-0100")],
        .obj [("PID.13.1", .str "")]] rfl) (by decide)
